import Mathlib

/-
  Verification of the ToneTracker core against its specification.

  The JavaScript sources are shallowly embedded below:
  * JS numbers are modelled as exact rationals (ℚ) where only field
    arithmetic and comparisons occur, and as reals (ℝ) for the Lab
    color-space pipeline (powers with fractional exponents);
  * JS objects whose key set is dynamic are modelled as association
    lists of a dynamic value type (JsVal);
  * code that throws is modelled as returning an error value alongside
    the (possibly partially mutated) state, mirroring exactly which
    mutations the source performs before the throw;
  * host collaborators (Math.random, Date.now, performance.now,
    localStorage) are threaded as explicit parameters or state.
-/

namespace ToneTracker

/-- JS Math.floor on a rational, written so that the kernel can evaluate it
(Euclidean division of the numerator by the positive denominator). -/
def jsFloor (q : ℚ) : ℤ := q.num / q.den

/-- jsFloor agrees with the mathematical floor. -/
theorem jsFloor_eq (q : ℚ) : jsFloor q = ⌊q⌋ := Rat.floor_def.symm

/-- JS Math.round: rounds half toward positive infinity, i.e. ⌊x + 1/2⌋. -/
def jsRound (q : ℚ) : ℤ := jsFloor (q + 1/2)

/-- jsRound agrees with floor of the shifted argument. -/
theorem jsRound_eq (q : ℚ) : jsRound q = ⌊q + 1/2⌋ := jsFloor_eq _

/-- Clamp an integer channel value to [0, 255], as Math.min(255, Math.max(0, x)). -/
def clampChannel (x : ℤ) : ℤ := min 255 (max 0 x)

/-! ## Game Session State (src/js/state.js, src/js/constants.js) -/

/-- Row of the DIFFICULTIES table in src/js/constants.js. -/
structure DiffSettings where
  tipCount : ℚ
  computerTipCount : ℚ
  score : ℚ
deriving DecidableEq, Repr

/-- Result of the JS property read DIFFICULTIES[level] on the plain object
literal of src/js/constants.js: an own table row; a member inherited from
Object.prototype (a truthy function or object, on which the subsequent
.tipCount read yields undefined without throwing); or undefined. -/
inductive DiffLookup where
  | table (s : DiffSettings) : DiffLookup
  | protoMember : DiffLookup
  | missing : DiffLookup
deriving DecidableEq, Repr

/-- Member names a plain-object property read inherits from
Object.prototype. -/
def objectProtoMembers : List String :=
  ["constructor", "hasOwnProperty", "isPrototypeOf", "propertyIsEnumerable",
   "toLocaleString", "toString", "valueOf", "__proto__", "__defineGetter__",
   "__defineSetter__", "__lookupGetter__", "__lookupSetter__"]

/-- DIFFICULTIES lookup from src/js/constants.js: own keys first, then the
members inherited from Object.prototype, then undefined. -/
def DIFFICULTIES (level : String) : DiffLookup :=
  if level = "easy" then .table ⟨3, 3, 100⟩
  else if level = "medium" then .table ⟨2, 2, 200⟩
  else if level = "hard" then .table ⟨1, 1, 300⟩
  else if level ∈ objectProtoMembers then .protoMember
  else .missing

/-- Mutable module state of src/js/state.js.  tipCount and computerTipCount
hold a number or undefined (none), since setDifficulty can assign
settings.tipCount where settings is an inherited prototype member. -/
structure SessionState where
  generatedColor : Option String
  startTime : Option ℚ
  score : ℚ
  tipCount : Option ℚ
  timerInterval : Option ℚ
  computerTipCount : Option ℚ
  isGameActive : Bool
  difficulty : String
deriving DecidableEq, Repr

/-- Initial value of the state object in src/js/state.js. -/
def initialSession : SessionState :=
  { generatedColor := none
    startTime := none
    score := 0
    tipCount := some 0
    timerInterval := none
    computerTipCount := some 0
    isGameActive := false
    difficulty := "easy" }

/-- setDifficulty from src/js/state.js.  The source first assigns
state.difficulty, then reads DIFFICULTIES[difficulty]: a table row resets
both budgets; an inherited Object.prototype member is truthy, so the
.tipCount/.computerTipCount reads yield undefined and the call completes
without throwing; an absent key is undefined and the .tipCount read throws a
TypeError, with the difficulty assignment already applied.  The Bool result
is false on that throw. -/
def setDifficulty (s : SessionState) (difficulty : String) : SessionState × Bool :=
  let s1 := { s with difficulty := difficulty }
  match DIFFICULTIES difficulty with
  | .table settings =>
      ({ s1 with tipCount := some settings.tipCount
                 computerTipCount := some settings.computerTipCount }, true)
  | .protoMember =>
      ({ s1 with tipCount := none, computerTipCount := none }, true)
  | .missing => (s1, false)

/-- C6 counterexample: "constructor" is outside {easy, medium, hard}, yet
DIFFICULTIES["constructor"] finds the inherited Object.prototype member, so
setDifficulty completes without throwing — falsifying the claim's universal
failure clause — and leaves both tip budgets undefined, with the invalid
difficulty already stored. -/
theorem setDifficulty_counterexample :
    ("constructor" ≠ "easy" ∧ "constructor" ≠ "medium" ∧ "constructor" ≠ "hard") ∧
    (setDifficulty initialSession "constructor").2 = true ∧
    (setDifficulty initialSession "constructor").1.tipCount = none ∧
    (setDifficulty initialSession "constructor").1.computerTipCount = none ∧
    (setDifficulty initialSession "constructor").1.difficulty = "constructor" := by
  refine ⟨by decide, rfl, rfl, rfl, rfl⟩

/-- C6 (amended): setDifficulty fails only for levels that are neither keys
of the difficulty table nor members inherited from Object.prototype; for an
inherited member name it completes without throwing, leaving both tip
budgets undefined; for levels in the table it resets the budgets from the
static table (easy 3/3, medium 2/2, hard 1/1, with base scores 100/200/300
respectively); and it always assigns state.difficulty first, even on the
throwing path. -/
theorem setDifficulty_spec (s : SessionState) (level : String) :
    ((level ≠ "easy" ∧ level ≠ "medium" ∧ level ≠ "hard" ∧
        level ∉ objectProtoMembers) →
      (setDifficulty s level).2 = false) ∧
    ((level ≠ "easy" ∧ level ≠ "medium" ∧ level ≠ "hard" ∧
        level ∈ objectProtoMembers) →
      ((setDifficulty s level).2 = true ∧
        (setDifficulty s level).1.tipCount = none ∧
        (setDifficulty s level).1.computerTipCount = none)) ∧
    ((setDifficulty s "easy").1.tipCount = some 3 ∧
      (setDifficulty s "easy").1.computerTipCount = some 3 ∧
      (setDifficulty s "easy").2 = true) ∧
    ((setDifficulty s "medium").1.tipCount = some 2 ∧
      (setDifficulty s "medium").1.computerTipCount = some 2 ∧
      (setDifficulty s "medium").2 = true) ∧
    ((setDifficulty s "hard").1.tipCount = some 1 ∧
      (setDifficulty s "hard").1.computerTipCount = some 1 ∧
      (setDifficulty s "hard").2 = true) ∧
    (setDifficulty s level).1.difficulty = level ∧
    DIFFICULTIES "easy" = .table ⟨3, 3, 100⟩ ∧
    DIFFICULTIES "medium" = .table ⟨2, 2, 200⟩ ∧
    DIFFICULTIES "hard" = .table ⟨1, 1, 300⟩ := by
  refine ⟨fun ⟨h1, h2, h3, h4⟩ => ?_, fun ⟨h1, h2, h3, h4⟩ => ?_, ?_, ?_, ?_, ?_, ?_, ?_, ?_⟩
  · simp [setDifficulty, DIFFICULTIES, h1, h2, h3, h4]
  · simp [setDifficulty, DIFFICULTIES, h1, h2, h3, h4]
  · simp [setDifficulty, DIFFICULTIES]
  · simp [setDifficulty, DIFFICULTIES]
  · simp [setDifficulty, DIFFICULTIES]
  · rcases hd : DIFFICULTIES level <;> simp [setDifficulty, hd]
  · simp [DIFFICULTIES]
  · simp [DIFFICULTIES]
  · simp [DIFFICULTIES]

/-- Witness for C6: "banana" (neither a table key nor an inherited member)
fails, "constructor" completes without throwing, and "hard" sets the tip
budget to 1. -/
theorem setDifficulty_spec_witness :
    (setDifficulty initialSession "banana").2 = false ∧
    (setDifficulty initialSession "constructor").2 = true ∧
    (setDifficulty initialSession "hard").1.tipCount = some 1 :=
  ⟨(setDifficulty_spec initialSession "banana").1 (by decide),
    ((setDifficulty_spec initialSession "constructor").2.1 (by decide)).1,
    ((setDifficulty_spec initialSession "hard").2.2.2.2.1).1⟩

/-! ## Color Metrics (src/js/colorUtils.js) -/

/-- RGB triple produced by hexToRgb (each channel in [0, 255]). -/
structure RGB where
  r : ℕ
  g : ℕ
  b : ℕ
deriving DecidableEq, Repr

/-- Character class [0-9A-Fa-f] of the validation regex in hexToRgb. -/
def isHexDigit (c : Char) : Bool :=
  (48 ≤ c.toNat && c.toNat ≤ 57) ||
  (97 ≤ c.toNat && c.toNat ≤ 102) ||
  (65 ≤ c.toNat && c.toNat ≤ 70)

/-- Numeric value of a hex digit character. -/
def hexDigitVal (c : Char) : ℕ :=
  if 48 ≤ c.toNat ∧ c.toNat ≤ 57 then c.toNat - 48
  else if 97 ≤ c.toNat ∧ c.toNat ≤ 102 then c.toNat - 97 + 10
  else c.toNat - 65 + 10

/-- JS String.prototype.replace with a string pattern removes only the first
occurrence; this models hex.replace of the hash character with "". -/
def removeFirstOcc (c : Char) : List Char → List Char
  | [] => []
  | x :: xs => if x = c then xs else x :: removeFirstOcc c xs

/-- Value of a list of hex digit characters, most significant first. -/
def hexValue (l : List Char) : ℕ :=
  l.foldl (fun acc c => 16 * acc + hexDigitVal c) 0

/-- hexToRgb from src/js/colorUtils.js.  none models the two throw sites:
empty string (JS falsy check) and regex mismatch after stripping the first
hash.  On success the 24-bit value is split with shifts and masks. -/
def hexToRgb (hex : String) : Option RGB :=
  if hex = "" then none
  else
    let cleanHex := removeFirstOcc '#' hex.toList
    if cleanHex.length = 6 ∧ cleanHex.all isHexDigit then
      let bigint := hexValue cleanHex
      some ⟨bigint / 65536 % 256, bigint / 256 % 256, bigint % 256⟩
    else none

/-- Channel linearization inside rgbToXyz (input already divided by 255). -/
noncomputable def srgbLin (u : ℝ) : ℝ :=
  if u > 0.04045 then ((u + 0.055) / 1.055) ^ (2.4 : ℝ) else u / 12.92

/-- rgbToXyz from src/js/colorUtils.js. -/
noncomputable def rgbToXyz (r g b : ℝ) : ℝ × ℝ × ℝ :=
  let r1 := srgbLin (r / 255) * 100
  let g1 := srgbLin (g / 255) * 100
  let b1 := srgbLin (b / 255) * 100
  (r1 * 0.4124 + g1 * 0.3576 + b1 * 0.1805,
   r1 * 0.2126 + g1 * 0.7152 + b1 * 0.0722,
   r1 * 0.0193 + g1 * 0.1192 + b1 * 0.9505)

/-- Nonlinear component function inside xyzToLab. -/
noncomputable def labF (t : ℝ) : ℝ :=
  if t > 0.008856 then t ^ ((1 : ℝ) / 3) else 7.787 * t + 16 / 116

/-- CIE-Lab coordinates. -/
structure Lab where
  l : ℝ
  a : ℝ
  b : ℝ

/-- xyzToLab from src/js/colorUtils.js. -/
noncomputable def xyzToLab (x y z : ℝ) : Lab :=
  let fx := labF (x / 95.047)
  let fy := labF (y / 100.0)
  let fz := labF (z / 108.883)
  ⟨116 * fy - 16, 500 * (fx - fy), 200 * (fy - fz)⟩

/-- rgbToLab from src/js/colorUtils.js. -/
noncomputable def rgbToLab (c : RGB) : Lab :=
  let xyz := rgbToXyz (c.r : ℝ) (c.g : ℝ) (c.b : ℝ)
  xyzToLab xyz.1 xyz.2.1 xyz.2.2

/-- deltaE76 from src/js/colorUtils.js: Euclidean distance in Lab space. -/
noncomputable def deltaE76 (lab1 lab2 : Lab) : ℝ :=
  Real.sqrt ((lab1.l - lab2.l) ^ 2 + (lab1.a - lab2.a) ^ 2 + (lab1.b - lab2.b) ^ 2)

/-- Feedback category suffix appended by compareColors: veryClose renders
" Nagyon közel vagy!", goodProgress " Jó úton haladsz!", needsWork
" Nem rossz, de még dolgoznod kell rajta.", farOff
" Eléggé eltértél a helyes színtől.". -/
inductive FeedbackCategory
  | veryClose
  | goodProgress
  | needsWork
  | farOff
deriving DecidableEq, Repr

/-- Threshold chain of compareColors assigning the category suffix. -/
noncomputable def feedbackCategory (percentage : ℝ) : FeedbackCategory :=
  if percentage > 90 then .veryClose
  else if percentage > 70 then .goodProgress
  else if percentage > 50 then .needsWork
  else .farOff

/-- Result of compareColors.  The JS function returns a string: success p cat
renders as "A tipp " ++ p.toFixed 2 ++ "%-ban helyes." plus the category
suffix; failure renders as the fixed catch-branch string
"Hiba történt a színek összehasonlítása során.". -/
inductive ColorFeedback
  | success (percentage : ℝ) (category : FeedbackCategory)
  | failure

/-- compareColors from src/js/colorUtils.js.  The try block covers both
hexToRgb calls, so a parse failure of either argument lands in the catch
branch, which returns the fixed error string. -/
noncomputable def compareColors (userColor correctColor : String) : ColorFeedback :=
  match hexToRgb userColor, hexToRgb correctColor with
  | some ru, some rc =>
      let deltaE := deltaE76 (rgbToLab ru) (rgbToLab rc)
      let percentage := max 0 (100 - (deltaE / 2.3) * 100)
      .success percentage (feedbackCategory percentage)
  | _, _ => .failure

/-- calculateColorDifference from src/js/colorUtils.js; the catch branch
returns the sentinel 100 when either color fails to parse. -/
noncomputable def calculateColorDifference (color1 color2 : String) : ℝ :=
  match hexToRgb color1, hexToRgb color2 with
  | some r1, some r2 => deltaE76 (rgbToLab r1) (rgbToLab r2)
  | _, _ => 100

/-- Distance of a Lab point to itself is zero. -/
theorem deltaE76_self (lab : Lab) : deltaE76 lab lab = 0 := by
  simp [deltaE76]

/-- Distance in Lab space is nonnegative. -/
theorem deltaE76_nonneg (lab1 lab2 : Lab) : 0 ≤ deltaE76 lab1 lab2 :=
  Real.sqrt_nonneg _

/-- C5: for every pair of colors accepted by hexToRgb, compareColors computes
percentage = max(0, 100 - (deltaE/2.3)*100) with deltaE the CIE76 Euclidean
Lab distance, the percentage lies in [0, 100], the feedback category follows
the thresholds >90, >70, >50, else, and comparing a color with itself yields
percentage 100 (rendered 100.00 by toFixed 2) in the top category. -/
theorem compareColors_spec (g t : String) (rg rt : RGB)
    (hg : hexToRgb g = some rg) (ht : hexToRgb t = some rt) :
    compareColors g t =
      .success (max 0 (100 - (deltaE76 (rgbToLab rg) (rgbToLab rt) / 2.3) * 100))
        (feedbackCategory (max 0 (100 - (deltaE76 (rgbToLab rg) (rgbToLab rt) / 2.3) * 100))) ∧
    0 ≤ max 0 (100 - (deltaE76 (rgbToLab rg) (rgbToLab rt) / 2.3) * 100) ∧
    max 0 (100 - (deltaE76 (rgbToLab rg) (rgbToLab rt) / 2.3) * 100) ≤ 100 ∧
    (∀ p : ℝ, 90 < p → feedbackCategory p = .veryClose) ∧
    (∀ p : ℝ, 70 < p → p ≤ 90 → feedbackCategory p = .goodProgress) ∧
    (∀ p : ℝ, 50 < p → p ≤ 70 → feedbackCategory p = .needsWork) ∧
    (∀ p : ℝ, p ≤ 50 → feedbackCategory p = .farOff) ∧
    compareColors g g = .success 100 .veryClose := by
  have hd := deltaE76_nonneg (rgbToLab rg) (rgbToLab rt)
  refine ⟨by simp [compareColors, hg, ht], le_max_left _ _, ?_, ?_, ?_, ?_, ?_, ?_⟩
  · have h1 : (0 : ℝ) ≤ deltaE76 (rgbToLab rg) (rgbToLab rt) / 2.3 * 100 := by positivity
    have h2 : (100 : ℝ) - deltaE76 (rgbToLab rg) (rgbToLab rt) / 2.3 * 100 ≤ 100 := by linarith
    exact max_le (by norm_num) h2
  · intro p hp
    simp [feedbackCategory, hp]
  · intro p hp1 hp2
    simp [feedbackCategory, hp1, not_lt.mpr hp2]
  · intro p hp1 hp2
    have h90 : p ≤ 90 := hp2.trans (by norm_num)
    simp [feedbackCategory, hp1, not_lt.mpr hp2, not_lt.mpr h90]
  · intro p hp
    simp [feedbackCategory, not_lt.mpr hp,
      not_lt.mpr (hp.trans (by norm_num : (50 : ℝ) ≤ 70)),
      not_lt.mpr (hp.trans (by norm_num : (50 : ℝ) ≤ 90))]
  · have h100 : max (0 : ℝ) (100 - (deltaE76 (rgbToLab rg) (rgbToLab rg) / 2.3) * 100) = 100 := by
      rw [deltaE76_self]
      norm_num
    have hcat : feedbackCategory (100 : ℝ) = .veryClose := by
      simp [feedbackCategory]
      norm_num
    simp only [compareColors, hg, h100, hcat]

/-- Witness for C5 at the concrete colors #ff0000 and #00ff00. -/
theorem compareColors_spec_witness :
    hexToRgb "#ff0000" = some ⟨255, 0, 0⟩ ∧
    hexToRgb "#00ff00" = some ⟨0, 255, 0⟩ ∧
    compareColors "#ff0000" "#ff0000" = .success 100 .veryClose :=
  ⟨by decide, by decide,
    (compareColors_spec "#ff0000" "#00ff00" ⟨255, 0, 0⟩ ⟨0, 255, 0⟩
      (by decide) (by decide)).2.2.2.2.2.2.2⟩

/-- C10: compareColors and calculateColorDifference are total on arbitrary
strings; whenever either argument is rejected by hexToRgb the parse failure
is caught, compareColors returns the fixed error feedback and
calculateColorDifference returns the sentinel difference 100. -/
theorem colorFunctions_total (s1 s2 : String)
    (h : hexToRgb s1 = none ∨ hexToRgb s2 = none) :
    compareColors s1 s2 = .failure ∧ calculateColorDifference s1 s2 = 100 := by
  rcases h with h | h
  · cases h2 : hexToRgb s2 <;>
      exact ⟨by simp [compareColors, h, h2], by simp [calculateColorDifference, h, h2]⟩
  · cases h1 : hexToRgb s1 <;>
      exact ⟨by simp [compareColors, h1, h], by simp [calculateColorDifference, h1, h]⟩

/-- Witness for C10 at the concrete invalid color "zz". -/
theorem colorFunctions_total_witness :
    hexToRgb "zz" = none ∧
    compareColors "zz" "#ff0000" = .failure ∧
    calculateColorDifference "zz" "#ff0000" = 100 :=
  ⟨by decide,
    (colorFunctions_total "zz" "#ff0000" (Or.inl (by decide))).1,
    (colorFunctions_total "zz" "#ff0000" (Or.inl (by decide))).2⟩

/-- JS String.prototype.substring(start, stop): the characters at indices
[start, stop), truncated at the string's end. -/
def jsSubstring (s : String) (start stop : ℕ) : List Char :=
  (s.toList.take stop).drop start

/-- JS parseInt(s, 16) on the short slices used by generateCloseColor: the
longest prefix of hex digits is parsed; none models NaN (no leading digit). -/
def jsParseIntHex (l : List Char) : Option ℕ :=
  let digits := l.takeWhile isHexDigit
  if digits = [] then none else some (hexValue digits)

/-- Lowercase hex digit character, as Number.prototype.toString(16) emits. -/
def hexDigitChar (n : ℕ) : Char :=
  if n < 10 then Char.ofNat (48 + n) else Char.ofNat (87 + n)

/-- Rendering c.toString(16).padStart(2, "0") of a channel value in [0, 255]. -/
def toHexPair (x : ℤ) : List Char :=
  [hexDigitChar (x.toNat / 16), hexDigitChar (x.toNat % 16)]

/-- Body of generateCloseColor from src/js/colorUtils.js with the already
drawn offset as a parameter: the same offset is added to all three channels,
each clamped to [0, 255] and re-rendered as lowercase hex.  none models the
NaN garbage produced when a channel slice fails to parse. -/
def generateCloseColorOff (generatedColor : String) (offset : ℤ) : Option String :=
  match jsParseIntHex (jsSubstring generatedColor 1 3),
        jsParseIntHex (jsSubstring generatedColor 3 5),
        jsParseIntHex (jsSubstring generatedColor 5 7) with
  | some r0, some g0, some b0 =>
      some ⟨'#' :: (toHexPair (clampChannel ((r0 : ℤ) + offset)) ++
        toHexPair (clampChannel ((g0 : ℤ) + offset)) ++
        toHexPair (clampChannel ((b0 : ℤ) + offset)))⟩
  | _, _, _ => none

/-- generateCloseColor from src/js/colorUtils.js: offset is
Math.floor(Math.random() * 20) - 10 with the Math.random() outcome rand as an
explicit parameter. -/
def generateCloseColor (generatedColor : String) (rand : ℚ) : Option String :=
  generateCloseColorOff generatedColor (jsFloor (rand * 20) - 10)

/-- Modelled from the spec: generateNearbyColor as the spec sentence words it,
"applies a uniform random offset in [-10,10] to each channel independently,
clamped to [0,255]", with the three independent per-channel offsets as
explicit randomness outcomes.  This is the claim's reading, to be compared
with generateCloseColor above. -/
def generateNearbyColorSpec (c : String) (offR offG offB : ℤ) : Option String :=
  match jsParseIntHex (jsSubstring c 1 3),
        jsParseIntHex (jsSubstring c 3 5),
        jsParseIntHex (jsSubstring c 5 7) with
  | some r0, some g0, some b0 =>
      some ⟨'#' :: (toHexPair (clampChannel ((r0 : ℤ) + offR)) ++
        toHexPair (clampChannel ((g0 : ℤ) + offG)) ++
        toHexPair (clampChannel ((b0 : ℤ) + offB)))⟩
  | _, _, _ => none

/-- Any offset the code can draw lies in [-10, 9]. -/
theorem generateCloseColor_offset_range (rand : ℚ) (h0 : 0 ≤ rand) (h1 : rand < 1) :
    -10 ≤ jsFloor (rand * 20) - 10 ∧ jsFloor (rand * 20) - 10 ≤ 9 := by
  rw [jsFloor_eq]
  have hlo : (0 : ℤ) ≤ ⌊rand * 20⌋ := Int.floor_nonneg.mpr (by positivity)
  have hhi : ⌊rand * 20⌋ < 20 := Int.floor_lt.mpr (by push_cast; linarith)
  omega

/-- Clamping an offset channel stays within distance 10 of the original. -/
theorem clampChannel_close (x o : ℤ) (hx0 : 0 ≤ x) (hx : x ≤ 255)
    (ho1 : -10 ≤ o) (ho2 : o ≤ 10) : |clampChannel (x + o) - x| ≤ 10 := by
  unfold clampChannel
  rw [abs_le]
  omega

/-- C7 counterexample: the claim's independent-offset reading produces
"#0a0000" from "#000000" (offsets 10, 0, 0, each inside [-10, 10]), but no
outcome of the code's randomness produces that color: generateCloseColor
draws one shared offset, limited to [-10, 9], for all three channels. -/
theorem generateCloseColor_counterexample :
    generateNearbyColorSpec "#000000" 10 0 0 = some "#0a0000" ∧
    (∀ rand : ℚ, 0 ≤ rand → rand < 1 →
      generateCloseColor "#000000" rand ≠ some "#0a0000") := by
  constructor
  · decide
  · intro rand h0 h1 hEq
    have hoff := generateCloseColor_offset_range rand h0 h1
    have hmem : jsFloor (rand * 20) - 10 ∈ Finset.Icc (-10 : ℤ) 9 :=
      Finset.mem_Icc.mpr ⟨hoff.1, hoff.2⟩
    have hall : ∀ o ∈ Finset.Icc (-10 : ℤ) 9,
        generateCloseColorOff "#000000" o ≠ some "#0a0000" := by decide
    exact hall _ hmem hEq

/-- C7 (amended): generateCloseColor derives a single offset ⌊rand·20⌋ - 10,
which lies in [-10, 9] for every randomness outcome rand ∈ [0, 1), applies
that same offset to all three channels, clamps each channel to [0, 255], and
so always returns a color within ±10 per channel of its input. -/
theorem generateCloseColor_spec (c : String) (rand : ℚ) (r0 g0 b0 : ℕ)
    (hr : jsParseIntHex (jsSubstring c 1 3) = some r0)
    (hg : jsParseIntHex (jsSubstring c 3 5) = some g0)
    (hb : jsParseIntHex (jsSubstring c 5 7) = some b0)
    (h0 : 0 ≤ rand) (h1 : rand < 1)
    (hr255 : r0 ≤ 255) (hg255 : g0 ≤ 255) (hb255 : b0 ≤ 255) :
    -10 ≤ jsFloor (rand * 20) - 10 ∧ jsFloor (rand * 20) - 10 ≤ 9 ∧
    generateCloseColor c rand =
      some ⟨'#' :: (toHexPair (clampChannel ((r0 : ℤ) + (jsFloor (rand * 20) - 10))) ++
        toHexPair (clampChannel ((g0 : ℤ) + (jsFloor (rand * 20) - 10))) ++
        toHexPair (clampChannel ((b0 : ℤ) + (jsFloor (rand * 20) - 10))))⟩ ∧
    |clampChannel ((r0 : ℤ) + (jsFloor (rand * 20) - 10)) - (r0 : ℤ)| ≤ 10 ∧
    |clampChannel ((g0 : ℤ) + (jsFloor (rand * 20) - 10)) - (g0 : ℤ)| ≤ 10 ∧
    |clampChannel ((b0 : ℤ) + (jsFloor (rand * 20) - 10)) - (b0 : ℤ)| ≤ 10 := by
  obtain ⟨ho1, ho2⟩ := generateCloseColor_offset_range rand h0 h1
  refine ⟨ho1, ho2, ?_, ?_, ?_, ?_⟩
  · simp [generateCloseColor, generateCloseColorOff, hr, hg, hb]
  · exact clampChannel_close _ _ (by positivity) (by exact_mod_cast hr255) ho1 (by omega)
  · exact clampChannel_close _ _ (by positivity) (by exact_mod_cast hg255) ho1 (by omega)
  · exact clampChannel_close _ _ (by positivity) (by exact_mod_cast hb255) ho1 (by omega)

/-- Witness for the amended C7 at the concrete color "#102030" with rand = 0,
giving offset -10 and output "#061626". -/
theorem generateCloseColor_spec_witness :
    generateCloseColor "#102030" 0 = some "#061626" := by
  have h := generateCloseColor_spec "#102030" 0 16 32 48 (by decide) (by decide) (by decide)
    (by norm_num) (by norm_num) (by norm_num) (by norm_num) (by norm_num)
  have ho : jsFloor ((0 : ℚ) * 20) = 0 := by rw [jsFloor_eq]; norm_num
  rw [ho] at h
  exact h.2.2.1.trans (by decide)

/-! ## Persistence Store: GameStatistics and recordGame (src/js/storage.js) -/

/-- Per-difficulty counters inside GameStatistics.difficultyCounts. -/
structure DiffCount where
  played : ℕ
  won : ℕ
  totalScore : ℚ
deriving DecidableEq, Repr

/-- The difficultyCounts object with its three fixed keys. -/
structure DifficultyCounts where
  easy : DiffCount
  medium : DiffCount
  hard : DiffCount
deriving DecidableEq, Repr

/-- The sessionStats sub-record of GameStatistics. -/
structure SessionStats where
  startTime : Option ℚ
  gamesPlayed : ℕ
  gamesWon : ℕ
deriving DecidableEq, Repr

/-- GameStatistics document (DEFAULT_GAME_STATISTICS shape in
src/js/storage.js).  Date-valued fields (createdAt, updatedAt, lastPlayed,
sessionStats.startTime) are modelled as rational clock readings; the
achievements array is never touched by recordGame and is omitted. -/
structure GameStats where
  version : ℕ
  totalGames : ℕ
  gamesWon : ℕ
  gamesLost : ℕ
  totalScore : ℚ
  bestScore : ℚ
  averageScore : ℚ
  totalTimeSpent : ℚ
  averageTime : ℚ
  bestTime : Option ℚ
  currentStreak : ℕ
  bestStreak : ℕ
  difficultyCounts : DifficultyCounts
  colorAccuracyHistory : List ℚ
  sessionStats : SessionStats
  lastPlayed : Option ℚ
  createdAt : ℚ
  updatedAt : ℚ
deriving DecidableEq, Repr

/-- DEFAULT_GAME_STATISTICS from src/js/storage.js. -/
def DEFAULT_GAME_STATISTICS : GameStats :=
  { version := 1
    totalGames := 0
    gamesWon := 0
    gamesLost := 0
    totalScore := 0
    bestScore := 0
    averageScore := 0
    totalTimeSpent := 0
    averageTime := 0
    bestTime := none
    currentStreak := 0
    bestStreak := 0
    difficultyCounts := ⟨⟨0, 0, 0⟩, ⟨0, 0, 0⟩, ⟨0, 0, 0⟩⟩
    colorAccuracyHistory := []
    sessionStats := ⟨none, 0, 0⟩
    lastPlayed := none
    createdAt := 0
    updatedAt := 0 }

/-- The gameResult record destructured at the top of recordGame; accuracy is
optional (the source tests accuracy !== undefined). -/
structure GameResult where
  won : Bool
  score : ℚ
  time : ℚ
  difficulty : String
  accuracy : Option ℚ
deriving DecidableEq, Repr

/-- First block of recordGame: totalGames, totalTimeSpent and the derived
averageTime. -/
def recordBase (s : GameStats) (r : GameResult) : GameStats :=
  let s1 := { s with totalGames := s.totalGames + 1
                     totalTimeSpent := s.totalTimeSpent + r.time }
  { s1 with averageTime := (jsRound (s1.totalTimeSpent / (s1.totalGames : ℚ)) : ℚ) }

/-- Won/lost branch of recordGame: streaks, best score, best time.  The
best-time guard in the source is (!stats.bestTime || time < stats.bestTime),
where both null and the number 0 are falsy. -/
def recordOutcome (s : GameStats) (r : GameResult) : GameStats :=
  if r.won then
    let sW := { s with gamesWon := s.gamesWon + 1
                       totalScore := s.totalScore + r.score
                       currentStreak := s.currentStreak + 1 }
    let sW := { sW with bestStreak := max sW.bestStreak sW.currentStreak }
    let sW := if r.score > sW.bestScore then { sW with bestScore := r.score } else sW
    match sW.bestTime with
    | none => { sW with bestTime := some r.time }
    | some t => if t = 0 ∨ r.time < t then { sW with bestTime := some r.time } else sW
  else
    { s with gamesLost := s.gamesLost + 1, currentStreak := 0 }

/-- Difficulty-specific counters: the lookup stats.difficultyCounts[difficulty]
is undefined (falsy, so the block is skipped) for any other key. -/
def updateDiffCounts (s : GameStats) (r : GameResult) : GameStats :=
  let upd := fun (d : DiffCount) =>
    let d1 := { d with played := d.played + 1 }
    if r.won then { d1 with won := d1.won + 1, totalScore := d1.totalScore + r.score } else d1
  if r.difficulty = "easy" then
    { s with difficultyCounts := { s.difficultyCounts with easy := upd s.difficultyCounts.easy } }
  else if r.difficulty = "medium" then
    { s with difficultyCounts := { s.difficultyCounts with medium := upd s.difficultyCounts.medium } }
  else if r.difficulty = "hard" then
    { s with difficultyCounts := { s.difficultyCounts with hard := upd s.difficultyCounts.hard } }
  else s

/-- Accuracy-history block of recordGame: push, then shift once when the
length exceeds 50. -/
def updateAccuracy (s : GameStats) (r : GameResult) : GameStats :=
  match r.accuracy with
  | none => s
  | some a =>
      let h := s.colorAccuracyHistory ++ [a]
      { s with colorAccuracyHistory := if h.length > 50 then h.tail else h }

/-- Session-stats block of recordGame (startTime only set when still null). -/
def updateSession (s : GameStats) (r : GameResult) (now : ℚ) : GameStats :=
  let st := if s.sessionStats.startTime = none then some now else s.sessionStats.startTime
  { s with sessionStats :=
      { startTime := st
        gamesPlayed := s.sessionStats.gamesPlayed + 1
        gamesWon := s.sessionStats.gamesWon + (if r.won then 1 else 0) } }

/-- Final block of recordGame: derived averageScore (rounded, denominator
gamesWon) and the timestamps. -/
def finalizeStats (s : GameStats) (now : ℚ) : GameStats :=
  { s with
    averageScore :=
      if s.gamesWon > 0 then (jsRound (s.totalScore / (s.gamesWon : ℚ)) : ℚ) else 0
    lastPlayed := some now
    updatedAt := now }

/-- recordGame from src/js/storage.js as the composition of its sequential
blocks (the trailing addHighScore call on a won game with positive score is
the high-score path modelled separately below). -/
def recordGame (s : GameStats) (r : GameResult) (now : ℚ) : GameStats :=
  finalizeStats (updateSession (updateAccuracy (updateDiffCounts (recordOutcome (recordBase s r) r) r) r) r now) now

/-- Fields of recordBase other than the time aggregates are untouched. -/
theorem recordBase_proj (s : GameStats) (r : GameResult) :
    (recordBase s r).gamesWon = s.gamesWon ∧
    (recordBase s r).gamesLost = s.gamesLost ∧
    (recordBase s r).totalGames = s.totalGames + 1 ∧
    (recordBase s r).totalScore = s.totalScore ∧
    (recordBase s r).colorAccuracyHistory = s.colorAccuracyHistory := by
  simp [recordBase]

/-- Effect of the won/lost branch on the counters tracked by the claim. -/
theorem recordOutcome_proj (s : GameStats) (r : GameResult) :
    (recordOutcome s r).gamesWon = s.gamesWon + (if r.won then 1 else 0) ∧
    (recordOutcome s r).gamesLost = s.gamesLost + (if r.won then 0 else 1) ∧
    (recordOutcome s r).totalGames = s.totalGames ∧
    (recordOutcome s r).totalScore = s.totalScore + (if r.won then r.score else 0) ∧
    (recordOutcome s r).colorAccuracyHistory = s.colorAccuracyHistory := by
  unfold recordOutcome
  by_cases hw : r.won <;> simp only [hw, if_true, if_false] <;>
    [split_ifs <;> (try split) <;> (try split_ifs) <;> simp; simp]

/-- updateDiffCounts only rewrites difficultyCounts. -/
theorem updateDiffCounts_proj (s : GameStats) (r : GameResult) :
    (updateDiffCounts s r).gamesWon = s.gamesWon ∧
    (updateDiffCounts s r).gamesLost = s.gamesLost ∧
    (updateDiffCounts s r).totalGames = s.totalGames ∧
    (updateDiffCounts s r).totalScore = s.totalScore ∧
    (updateDiffCounts s r).colorAccuracyHistory = s.colorAccuracyHistory := by
  unfold updateDiffCounts
  split_ifs <;> simp

/-- updateAccuracy only rewrites the accuracy history, by push then a single
shift when the bound is exceeded. -/
theorem updateAccuracy_proj (s : GameStats) (r : GameResult) :
    (updateAccuracy s r).gamesWon = s.gamesWon ∧
    (updateAccuracy s r).gamesLost = s.gamesLost ∧
    (updateAccuracy s r).totalGames = s.totalGames ∧
    (updateAccuracy s r).totalScore = s.totalScore ∧
    (updateAccuracy s r).colorAccuracyHistory =
      (match r.accuracy with
        | none => s.colorAccuracyHistory
        | some a =>
            if (s.colorAccuracyHistory ++ [a]).length > 50
            then (s.colorAccuracyHistory ++ [a]).tail
            else s.colorAccuracyHistory ++ [a]) := by
  cases hacc : r.accuracy <;> simp [updateAccuracy, hacc]

/-- updateAccuracy with a present accuracy value, unfolded. -/
theorem updateAccuracy_some (s : GameStats) (r : GameResult) (a : ℚ)
    (h : r.accuracy = some a) :
    (updateAccuracy s r).colorAccuracyHistory =
      (if (s.colorAccuracyHistory ++ [a]).length > 50
        then (s.colorAccuracyHistory ++ [a]).tail
        else s.colorAccuracyHistory ++ [a]) := by
  simp [updateAccuracy, h]

/-- updateSession only rewrites sessionStats. -/
theorem updateSession_proj (s : GameStats) (r : GameResult) (now : ℚ) :
    (updateSession s r now).gamesWon = s.gamesWon ∧
    (updateSession s r now).gamesLost = s.gamesLost ∧
    (updateSession s r now).totalGames = s.totalGames ∧
    (updateSession s r now).totalScore = s.totalScore ∧
    (updateSession s r now).colorAccuracyHistory = s.colorAccuracyHistory := by
  simp [updateSession]

/-- finalizeStats rewrites averageScore and the timestamps only. -/
theorem finalizeStats_proj (s : GameStats) (now : ℚ) :
    (finalizeStats s now).gamesWon = s.gamesWon ∧
    (finalizeStats s now).gamesLost = s.gamesLost ∧
    (finalizeStats s now).totalGames = s.totalGames ∧
    (finalizeStats s now).totalScore = s.totalScore ∧
    (finalizeStats s now).colorAccuracyHistory = s.colorAccuracyHistory ∧
    (finalizeStats s now).averageScore =
      (if s.gamesWon > 0 then (jsRound (s.totalScore / (s.gamesWon : ℚ)) : ℚ) else 0) := by
  simp [finalizeStats]

/-- A bounded history stays bounded under push-then-shift. -/
theorem historyLen_le (l : List ℚ) (a : ℚ) (h : l.length ≤ 50) :
    (if (l ++ [a]).length > 50 then (l ++ [a]).tail else l ++ [a]).length ≤ 50 := by
  split_ifs with hlen
  · simp only [List.length_tail, List.length_append, List.length_singleton]
    omega
  · simp only [List.length_append, List.length_singleton] at hlen ⊢
    omega

/-- One recordGame call preserves the counter identity and the history bound,
and establishes the rounded averageScore equation. -/
theorem recordGame_preserves (s : GameStats) (r : GameResult) (now : ℚ)
    (h1 : s.gamesWon + s.gamesLost = s.totalGames)
    (h2 : s.colorAccuracyHistory.length ≤ 50) :
    (recordGame s r now).gamesWon + (recordGame s r now).gamesLost =
      (recordGame s r now).totalGames ∧
    (recordGame s r now).colorAccuracyHistory.length ≤ 50 ∧
    (recordGame s r now).averageScore =
      (if (recordGame s r now).gamesWon = 0 then 0
        else (jsRound ((recordGame s r now).totalScore /
          ((recordGame s r now).gamesWon : ℚ)) : ℚ)) := by
  obtain ⟨b1, b2, b3, b4, b5⟩ := recordBase_proj s r
  obtain ⟨o1, o2, o3, o4, o5⟩ := recordOutcome_proj (recordBase s r) r
  obtain ⟨d1, d2, d3, d4, d5⟩ := updateDiffCounts_proj (recordOutcome (recordBase s r) r) r
  obtain ⟨a1, a2, a3, a4, a5⟩ :=
    updateAccuracy_proj (updateDiffCounts (recordOutcome (recordBase s r) r) r) r
  obtain ⟨u1, u2, u3, u4, u5⟩ :=
    updateSession_proj (updateAccuracy (updateDiffCounts (recordOutcome (recordBase s r) r) r) r) r now
  obtain ⟨f1, f2, f3, f4, f5, f6⟩ :=
    finalizeStats_proj (updateSession (updateAccuracy (updateDiffCounts
      (recordOutcome (recordBase s r) r) r) r) r now) now
  unfold recordGame
  refine ⟨?_, ?_, ?_⟩
  · rw [f1, f2, f3, u1, u2, u3, a1, a2, a3, d1, d2, d3, o1, o2, o3, b1, b2, b3]
    by_cases hw : r.won <;> simp [hw] <;> omega
  · rw [f5, u5, a5, d5, o5, b5]
    cases hacc : r.accuracy with
    | none => simpa using h2
    | some a => simpa using historyLen_le s.colorAccuracyHistory a h2
  · rw [f6, f1, f4, u1, u4]
    by_cases hz : (updateAccuracy (updateDiffCounts (recordOutcome (recordBase s r) r) r) r).gamesWon = 0 <;>
      simp [hz, Nat.pos_iff_ne_zero]

/-- C1 (amended): for every sequence of recordGame calls starting from the
default GameStatistics document, gamesWon + gamesLost = totalGames, the
accuracy history has length at most 50 with the oldest entry evicted first
when the bound would be exceeded, and averageScore is totalScore / gamesWon
rounded to the nearest integer, Math.round style (0 when gamesWon is 0). -/
theorem recordGame_invariant (results : List (GameResult × ℚ)) :
    (results.foldl (fun s p => recordGame s p.1 p.2) DEFAULT_GAME_STATISTICS).gamesWon +
      (results.foldl (fun s p => recordGame s p.1 p.2) DEFAULT_GAME_STATISTICS).gamesLost =
      (results.foldl (fun s p => recordGame s p.1 p.2) DEFAULT_GAME_STATISTICS).totalGames ∧
    (results.foldl (fun s p => recordGame s p.1 p.2) DEFAULT_GAME_STATISTICS).colorAccuracyHistory.length ≤ 50 ∧
    (results.foldl (fun s p => recordGame s p.1 p.2) DEFAULT_GAME_STATISTICS).averageScore =
      (if (results.foldl (fun s p => recordGame s p.1 p.2) DEFAULT_GAME_STATISTICS).gamesWon = 0 then 0
        else (jsRound ((results.foldl (fun s p => recordGame s p.1 p.2) DEFAULT_GAME_STATISTICS).totalScore /
          (((results.foldl (fun s p => recordGame s p.1 p.2) DEFAULT_GAME_STATISTICS).gamesWon : ℕ) : ℚ)) : ℚ)) ∧
    (∀ (r : GameResult) (now a : ℚ),
      (recordGame (results.foldl (fun s p => recordGame s p.1 p.2) DEFAULT_GAME_STATISTICS)
          { r with accuracy := some a } now).colorAccuracyHistory =
        (if (results.foldl (fun s p => recordGame s p.1 p.2) DEFAULT_GAME_STATISTICS).colorAccuracyHistory.length < 50
          then (results.foldl (fun s p => recordGame s p.1 p.2) DEFAULT_GAME_STATISTICS).colorAccuracyHistory ++ [a]
          else (results.foldl (fun s p => recordGame s p.1 p.2) DEFAULT_GAME_STATISTICS).colorAccuracyHistory.tail ++ [a])) := by
  have main : ∀ (l : List (GameResult × ℚ)) (s : GameStats),
      s.gamesWon + s.gamesLost = s.totalGames →
      s.colorAccuracyHistory.length ≤ 50 →
      s.averageScore = (if s.gamesWon = 0 then 0
        else (jsRound (s.totalScore / (s.gamesWon : ℚ)) : ℚ)) →
      (l.foldl (fun s p => recordGame s p.1 p.2) s).gamesWon +
        (l.foldl (fun s p => recordGame s p.1 p.2) s).gamesLost =
        (l.foldl (fun s p => recordGame s p.1 p.2) s).totalGames ∧
      (l.foldl (fun s p => recordGame s p.1 p.2) s).colorAccuracyHistory.length ≤ 50 ∧
      (l.foldl (fun s p => recordGame s p.1 p.2) s).averageScore =
        (if (l.foldl (fun s p => recordGame s p.1 p.2) s).gamesWon = 0 then 0
          else (jsRound ((l.foldl (fun s p => recordGame s p.1 p.2) s).totalScore /
            ((l.foldl (fun s p => recordGame s p.1 p.2) s).gamesWon : ℚ)) : ℚ)) := by
    intro l
    induction l with
    | nil => intro s h1 h2 h3; exact ⟨h1, h2, h3⟩
    | cons p tl ih =>
        intro s h1 h2 _
        obtain ⟨s1, s2, s3⟩ := recordGame_preserves s p.1 p.2 h1 h2
        exact ih (recordGame s p.1 p.2) s1 s2 s3
  obtain ⟨m1, m2, m3⟩ := main results DEFAULT_GAME_STATISTICS (by simp [DEFAULT_GAME_STATISTICS])
    (by simp [DEFAULT_GAME_STATISTICS]) (by simp [DEFAULT_GAME_STATISTICS])
  refine ⟨m1, m2, m3, ?_⟩
  intro r now a
  set final := results.foldl (fun s p => recordGame s p.1 p.2) DEFAULT_GAME_STATISTICS with hfinal
  obtain ⟨b1, b2, b3, b4, b5⟩ := recordBase_proj final { r with accuracy := some a }
  obtain ⟨o1, o2, o3, o4, o5⟩ :=
    recordOutcome_proj (recordBase final { r with accuracy := some a }) { r with accuracy := some a }
  obtain ⟨d1, d2, d3, d4, d5⟩ :=
    updateDiffCounts_proj (recordOutcome (recordBase final { r with accuracy := some a })
      { r with accuracy := some a }) { r with accuracy := some a }
  obtain ⟨u1, u2, u3, u4, u5⟩ :=
    updateSession_proj (updateAccuracy (updateDiffCounts (recordOutcome
      (recordBase final { r with accuracy := some a }) { r with accuracy := some a })
      { r with accuracy := some a }) { r with accuracy := some a }) { r with accuracy := some a } now
  obtain ⟨f1, f2, f3, f4, f5, f6⟩ :=
    finalizeStats_proj (updateSession (updateAccuracy (updateDiffCounts (recordOutcome
      (recordBase final { r with accuracy := some a }) { r with accuracy := some a })
      { r with accuracy := some a }) { r with accuracy := some a }) { r with accuracy := some a } now) now
  unfold recordGame
  rw [f5, u5, updateAccuracy_some _ _ a rfl, d5, o5, b5]
  by_cases hlt : final.colorAccuracyHistory.length < 50
  · rw [if_pos hlt, if_neg (by
      simp only [List.length_append, List.length_singleton, gt_iff_lt, not_lt]
      omega)]
  · have h50 : final.colorAccuracyHistory.length = 50 := by omega
    rw [if_neg hlt, if_pos (by
      simp only [List.length_append, List.length_singleton, gt_iff_lt]
      omega)]
    cases hcl : final.colorAccuracyHistory with
    | nil => rw [hcl] at h50; simp at h50
    | cons x xs => simp

/-- Game result used by the C1 counterexample: a win scoring 1. -/
def winOne : GameResult := ⟨true, 1, 0, "easy", none⟩

/-- Game result used by the C1 counterexample: a win scoring 2. -/
def winTwo : GameResult := ⟨true, 2, 0, "easy", none⟩

/-- C1 counterexample: after recording wins with scores 1 and 2, the stored
averageScore is the rounded value 2 while totalScore / gamesWon is 3/2, so
the claim's exact-quotient equation for averageScore fails on this run. -/
theorem recordGame_counterexample :
    (recordGame (recordGame DEFAULT_GAME_STATISTICS winOne 0) winTwo 0).averageScore = 2 ∧
    (recordGame (recordGame DEFAULT_GAME_STATISTICS winOne 0) winTwo 0).totalScore /
      (((recordGame (recordGame DEFAULT_GAME_STATISTICS winOne 0) winTwo 0).gamesWon : ℕ) : ℚ) = 3 / 2 ∧
    (recordGame (recordGame DEFAULT_GAME_STATISTICS winOne 0) winTwo 0).averageScore ≠
      (recordGame (recordGame DEFAULT_GAME_STATISTICS winOne 0) winTwo 0).totalScore /
        (((recordGame (recordGame DEFAULT_GAME_STATISTICS winOne 0) winTwo 0).gamesWon : ℕ) : ℚ) := by
  have h1 : recordGame DEFAULT_GAME_STATISTICS winOne 0 =
      { version := 1, totalGames := 1, gamesWon := 1, gamesLost := 0, totalScore := 1,
        bestScore := 1, averageScore := 1, totalTimeSpent := 0, averageTime := 0,
        bestTime := some 0, currentStreak := 1, bestStreak := 1,
        difficultyCounts := ⟨⟨1, 1, 1⟩, ⟨0, 0, 0⟩, ⟨0, 0, 0⟩⟩,
        colorAccuracyHistory := [], sessionStats := ⟨some 0, 1, 1⟩,
        lastPlayed := some 0, createdAt := 0, updatedAt := 0 } := by
    norm_num [recordGame, recordBase, recordOutcome, updateDiffCounts, updateAccuracy,
      updateSession, finalizeStats, DEFAULT_GAME_STATISTICS, winOne, jsRound_eq]
  have h2 : recordGame (recordGame DEFAULT_GAME_STATISTICS winOne 0) winTwo 0 =
      { version := 1, totalGames := 2, gamesWon := 2, gamesLost := 0, totalScore := 3,
        bestScore := 2, averageScore := 2, totalTimeSpent := 0, averageTime := 0,
        bestTime := some 0, currentStreak := 2, bestStreak := 2,
        difficultyCounts := ⟨⟨2, 2, 3⟩, ⟨0, 0, 0⟩, ⟨0, 0, 0⟩⟩,
        colorAccuracyHistory := [], sessionStats := ⟨some 0, 2, 2⟩,
        lastPlayed := some 0, createdAt := 0, updatedAt := 0 } := by
    rw [h1]
    norm_num [recordGame, recordBase, recordOutcome, updateDiffCounts, updateAccuracy,
      updateSession, finalizeStats, winTwo, jsRound_eq]
  rw [h2]
  norm_num

/-! ## Persistence Store: high scores (src/js/storage.js, addHighScore) -/

/-- High-score entry: the scoreData record pushed by addHighScore, with the
id (Date.now().toString()) and timestamp fields the method adds, both
modelled as rational clock readings. -/
structure ScoreEntry where
  score : ℚ
  time : ℚ
  difficulty : String
  accuracy : Option ℚ
  date : ℚ
  targetColor : Option String
  userGuess : Option String
  id : ℚ
  timestamp : ℚ
deriving DecidableEq, Repr

/-- High-scores document (DEFAULT_HIGH_SCORES shape in src/js/storage.js). -/
structure HighScores where
  version : ℕ
  scores : List ScoreEntry
  maxScores : ℕ
  createdAt : ℚ
  updatedAt : ℚ
deriving DecidableEq, Repr

/-- DEFAULT_HIGH_SCORES from src/js/storage.js. -/
def DEFAULT_HIGH_SCORES : HighScores :=
  { version := 1, scores := [], maxScores := 100, createdAt := 0, updatedAt := 0 }

/-- Ordering realized by the comparator passed to scores.sort in
addHighScore: a may precede b when a has the higher score, ties broken by
the smaller (faster) time. -/
def scoreLe (a b : ScoreEntry) : Bool :=
  if a.score = b.score then decide (a.time ≤ b.time) else decide (b.score < a.score)

/-- scoreLe is total. -/
theorem scoreLe_total (a b : ScoreEntry) : (scoreLe a b || scoreLe b a) = true := by
  unfold scoreLe
  by_cases h : a.score = b.score
  · simp [h]
    exact le_total a.time b.time
  · have h' : b.score ≠ a.score := fun hh => h hh.symm
    simp [h, h']

/-- scoreLe is transitive. -/
theorem scoreLe_trans (a b c : ScoreEntry)
    (h1 : scoreLe a b = true) (h2 : scoreLe b c = true) : scoreLe a c = true := by
  unfold scoreLe at h1 h2 ⊢
  by_cases hab : a.score = b.score
  · by_cases hbc : b.score = c.score
    · have hac : a.score = c.score := hab.trans hbc
      simp [hab, hbc, hac] at h1 h2 ⊢
      exact le_trans h1 h2
    · have hlt : c.score < b.score := by simpa [hbc] using h2
      have hac : a.score ≠ c.score := by rw [hab]; exact hbc
      simp [hac]
      rw [hab]
      exact hlt
  · have hlt1 : b.score < a.score := by simpa [hab] using h1
    by_cases hbc : b.score = c.score
    · have hac : a.score ≠ c.score := by
        rw [← hbc]
        exact fun hh => absurd hlt1 (hh ▸ lt_irrefl a.score)
      simp [hac]
      rw [← hbc]
      exact hlt1
    · have hlt2 : c.score < b.score := by simpa [hbc] using h2
      have hca : c.score < a.score := lt_trans hlt2 hlt1
      have hac : a.score ≠ c.score := fun hh => absurd hca (hh ▸ lt_irrefl c.score)
      simp [hac]
      exact hca

/-- The boolean comparator order coincides with the claim's ordering: score
descending, ties broken by ascending time. -/
theorem scoreLe_iff (a b : ScoreEntry) :
    scoreLe a b = true ↔ (b.score < a.score ∨ (a.score = b.score ∧ a.time ≤ b.time)) := by
  unfold scoreLe
  by_cases h : a.score = b.score <;> simp [h]

/-- addHighScore from src/js/storage.js: push the new entry (with generated
id and timestamp), sort by the comparator, then slice to the top maxScores
entries when the bound is exceeded.  JS Array.sort is stable, as is
List.mergeSort. -/
def addHighScore (hs : HighScores) (scoreData : ScoreEntry) (now : ℚ) : HighScores :=
  let pushed := hs.scores ++ [{ scoreData with id := now, timestamp := now }]
  let sorted := pushed.mergeSort scoreLe
  let trimmed := if sorted.length > hs.maxScores then sorted.take hs.maxScores else sorted
  { hs with scores := trimmed, updatedAt := now }

/-- One addHighScore call makes the board sorted, bounded by maxScores, and
preserves maxScores. -/
theorem addHighScore_step (hs : HighScores) (e : ScoreEntry) (now : ℚ) :
    (addHighScore hs e now).scores.Pairwise (fun a b => scoreLe a b = true) ∧
    (addHighScore hs e now).scores.length ≤ (addHighScore hs e now).maxScores ∧
    (addHighScore hs e now).maxScores = hs.maxScores := by
  unfold addHighScore
  have hsorted := @List.sorted_mergeSort ScoreEntry scoreLe
    (fun a b c => scoreLe_trans a b c)
    (fun a b => scoreLe_total a b)
    (hs.scores ++ [{ e with id := now, timestamp := now }])
  refine ⟨?_, ?_, rfl⟩
  · by_cases hlen : ((hs.scores ++ [{ e with id := now, timestamp := now }]).mergeSort scoreLe).length > hs.maxScores <;>
      simp only [hlen, if_true, if_false]
    · exact hsorted.sublist (List.take_sublist _ _)
    · exact hsorted
  · by_cases hlen : ((hs.scores ++ [{ e with id := now, timestamp := now }]).mergeSort scoreLe).length > hs.maxScores <;>
      simp only [hlen, if_true, if_false]
    · simp [List.length_take]
    · omega

/-- C3: after any sequence of addHighScore calls starting from the default
board, the scores sequence is sorted by score descending with ties broken by
ascending time, and its length is at most maxScores, which stays 100. -/
theorem addHighScore_invariant (entries : List (ScoreEntry × ℚ)) :
    (entries.foldl (fun h p => addHighScore h p.1 p.2) DEFAULT_HIGH_SCORES).scores.Pairwise
      (fun a b => b.score < a.score ∨ (a.score = b.score ∧ a.time ≤ b.time)) ∧
    (entries.foldl (fun h p => addHighScore h p.1 p.2) DEFAULT_HIGH_SCORES).scores.length ≤
      (entries.foldl (fun h p => addHighScore h p.1 p.2) DEFAULT_HIGH_SCORES).maxScores ∧
    (entries.foldl (fun h p => addHighScore h p.1 p.2) DEFAULT_HIGH_SCORES).maxScores = 100 := by
  have main : ∀ (l : List (ScoreEntry × ℚ)) (hs : HighScores),
      hs.scores.Pairwise (fun a b => scoreLe a b = true) →
      hs.scores.length ≤ hs.maxScores →
      hs.maxScores = 100 →
      (l.foldl (fun h p => addHighScore h p.1 p.2) hs).scores.Pairwise
        (fun a b => scoreLe a b = true) ∧
      (l.foldl (fun h p => addHighScore h p.1 p.2) hs).scores.length ≤
        (l.foldl (fun h p => addHighScore h p.1 p.2) hs).maxScores ∧
      (l.foldl (fun h p => addHighScore h p.1 p.2) hs).maxScores = 100 := by
    intro l
    induction l with
    | nil => intro hs h1 h2 h3; exact ⟨h1, h2, h3⟩
    | cons p tl ih =>
        intro hs h1 h2 h3
        obtain ⟨s1, s2, s3⟩ := addHighScore_step hs p.1 p.2
        exact ih (addHighScore hs p.1 p.2) s1 s2 (s3.trans h3)
  obtain ⟨m1, m2, m3⟩ := main entries DEFAULT_HIGH_SCORES (by simp [DEFAULT_HIGH_SCORES])
    (by simp [DEFAULT_HIGH_SCORES]) (by simp [DEFAULT_HIGH_SCORES])
  exact ⟨m1.imp (fun h => (scoreLe_iff _ _).mp h), m2, m3⟩

/-! ## Dynamic JS values (shared by the storage and state-manager models) -/

/-- Dynamic JSON-like value.  JS objects are ordered association lists
(insertion order), arrays are lists, numbers exact rationals.  Dates are
carried as their numeric clock reading. -/
inductive JsVal where
  | null : JsVal
  | undef : JsVal
  | bool (b : Bool) : JsVal
  | num (q : ℚ) : JsVal
  | nan : JsVal
  | str (s : String) : JsVal
  | arr (elems : List JsVal) : JsVal
  | obj (fields : List (String × JsVal)) : JsVal

/-- JS property assignment on an object: overwrite in place when the key
exists (insertion order kept), append otherwise. -/
def objSet : List (String × JsVal) → String → JsVal → List (String × JsVal)
  | [], k, v => [(k, v)]
  | (k', v') :: rest, k, v =>
      if k' = k then (k, v) :: rest else (k', v') :: objSet rest k v

/-- JS property deletion (Map.delete / removeItem). -/
def objDel : List (String × JsVal) → String → List (String × JsVal)
  | [], _ => []
  | p :: rest, k => if p.1 = k then objDel rest k else p :: objDel rest k

/-- Looking up the key just set yields the new value. -/
theorem lookup_objSet_self (l : List (String × JsVal)) (k : String) (v : JsVal) :
    (objSet l k v).lookup k = some v := by
  induction l with
  | nil => simp [objSet]
  | cons p rest ih =>
      by_cases h : p.1 = k
      · simp [objSet, h]
      · have hbe : (k == p.1) = false := beq_eq_false_iff_ne.mpr (Ne.symm h)
        simp [objSet, h, List.lookup, hbe, ih]

/-- Setting a different key does not change a lookup. -/
theorem lookup_objSet_ne (l : List (String × JsVal)) (k k' : String) (v : JsVal)
    (h : k' ≠ k) : (objSet l k' v).lookup k = l.lookup k := by
  have hbe : (k == k') = false := beq_eq_false_iff_ne.mpr (Ne.symm h)
  induction l with
  | nil => simp [objSet, List.lookup, hbe]
  | cons p rest ih =>
      by_cases hp : p.1 = k'
      · simp [objSet, hp, List.lookup, hbe]
      · cases hbp : (k == p.1) <;> simp [objSet, hp, List.lookup, hbp, ih]

/-- Deleting a different key does not change a lookup. -/
theorem lookup_objDel_ne (l : List (String × JsVal)) (k k' : String)
    (h : k' ≠ k) : (objDel l k').lookup k = l.lookup k := by
  induction l with
  | nil => simp [objDel]
  | cons p rest ih =>
      by_cases hp : p.1 = k'
      · have hbe : (k == k') = false := beq_eq_false_iff_ne.mpr (Ne.symm h)
        simp [objDel, hp, List.lookup, hbe, ih]
      · cases hbp : (k == p.1) <;> simp [objDel, hp, List.lookup, hbp, ih]

/-! ## Persistence Store: set/get/remove and the cache (src/js/storage.js) -/

/-- Result of StorageManager.set: true-return, unsupported false-return, or
the thrown StorageWriteError (quota exceeded). -/
inductive SetResult where
  | ok : SetResult
  | unsupported : SetResult
  | writeError : SetResult
deriving DecidableEq, Repr

/-- Store state: backend is localStorage, holding for each key the parsed
form of the stored JSON string (JSON.parse after JSON.stringify is the
identity on the JSON-representable values the store handles); cache is the
in-memory Map. -/
structure Store where
  isSupported : Bool
  backend : List (String × JsVal)
  cache : List (String × JsVal)

/-- StorageManager.set from src/js/storage.js.  writeOk is the outcome of
the backend setItem call (false models a quota rejection, which throws
before the cache update). -/
def storeSet (st : Store) (k : String) (v : JsVal) (writeOk : Bool) : Store × SetResult :=
  if st.isSupported = false then (st, .unsupported)
  else if writeOk then
    ({ st with backend := objSet st.backend k v, cache := objSet st.cache k v }, .ok)
  else (st, .writeError)

/-- StorageManager.get from src/js/storage.js: unsupported returns the
default; a cache hit returns immediately; on a miss the backend value is
parsed and populates the cache; an absent key returns the default. -/
def storeGet (st : Store) (k : String) (deflt : JsVal) : Store × JsVal :=
  if st.isSupported = false then (st, deflt)
  else
    match st.cache.lookup k with
    | some v => (st, v)
    | none =>
        match st.backend.lookup k with
        | none => (st, deflt)
        | some v => ({ st with cache := objSet st.cache k v }, v)

/-- StorageManager.remove from src/js/storage.js. -/
def storeRemove (st : Store) (k : String) : Store :=
  if st.isSupported = false then st
  else { st with backend := objDel st.backend k, cache := objDel st.cache k }

/-- One public store operation, with the backend write outcome attached to
sets. -/
inductive StoreOp where
  | opSet (k : String) (v : JsVal) (writeOk : Bool)
  | opGet (k : String) (deflt : JsVal)
  | opRemove (k : String)

/-- State evolution of one operation. -/
def runOp (st : Store) : StoreOp → Store
  | .opSet k v w => (storeSet st k v w).1
  | .opGet k d => (storeGet st k d).1
  | .opRemove k => storeRemove st k

/-- State evolution of an operation sequence. -/
def runOps (st : Store) (ops : List StoreOp) : Store := ops.foldl runOp st

/-- An operation overwrites or removes the given key. -/
def touchesKey (k : String) : StoreOp → Prop
  | .opSet k' _ _ => k' = k
  | .opGet _ _ => False
  | .opRemove k' => k' = k

/-- Core cache invariant behind C9: once the cache holds v at k, any
operation not touching k keeps it (a get of another key only adds that other
key to the cache; a get of k itself takes the hit branch). -/
theorem runOp_cache_stable (st : Store) (op : StoreOp) (k : String) (v : JsVal)
    (hsup : st.isSupported = true) (hc : st.cache.lookup k = some v)
    (hop : ¬ touchesKey k op) :
    (runOp st op).isSupported = true ∧ (runOp st op).cache.lookup k = some v := by
  cases op with
  | opSet k' v' w =>
      have hne : k' ≠ k := hop
      unfold runOp storeSet
      rw [hsup]
      by_cases hw : w <;> simp [hw, hsup, lookup_objSet_ne _ _ _ _ hne, hc]
  | opGet k' d =>
      unfold runOp storeGet
      rw [hsup]
      by_cases hck : k' = k
      · subst hck
        simp [hc, hsup]
      · cases hcache : st.cache.lookup k' <;> cases hback : st.backend.lookup k' <;>
          simp [hcache, hback, hc, hsup, lookup_objSet_ne _ _ _ _ hck]
  | opRemove k' =>
      have hne : k' ≠ k := hop
      unfold runOp storeRemove
      rw [hsup]
      simp [lookup_objDel_ne _ _ _ hne, hc, hsup]

/-- C9: read-your-writes coherence.  If a set of key k succeeds, then after
any further operations that neither overwrite nor remove k, get of k returns
the written value, whatever default is supplied. -/
theorem storeGet_after_set (st : Store) (k : String) (v : JsVal) (w : Bool)
    (ops : List StoreOp) (d : JsVal)
    (hset : (storeSet st k v w).2 = .ok)
    (hops : ∀ op ∈ ops, ¬ touchesKey k op) :
    (storeGet (runOps (storeSet st k v w).1 ops) k d).2 = v := by
  have hsup : st.isSupported = true := by
    by_contra hns
    have : st.isSupported = false := by
      cases hsv : st.isSupported
      · rfl
      · exact absurd hsv hns
    unfold storeSet at hset
    rw [this] at hset
    simp at hset
  have hw : w = true := by
    by_cases hww : w
    · exact hww
    · unfold storeSet at hset
      rw [hsup] at hset
      simp [hww] at hset
  have hstart : ((storeSet st k v w).1.isSupported = true ∧
      (storeSet st k v w).1.cache.lookup k = some v) := by
    unfold storeSet
    rw [hsup, hw]
    simp [lookup_objSet_self]
  have main : ∀ (l : List StoreOp) (s : Store),
      s.isSupported = true → s.cache.lookup k = some v →
      (∀ op ∈ l, ¬ touchesKey k op) →
      (runOps s l).isSupported = true ∧ (runOps s l).cache.lookup k = some v := by
    intro l
    induction l with
    | nil => intro s h1 h2 _; exact ⟨h1, h2⟩
    | cons op tl ih =>
        intro s h1 h2 h3
        obtain ⟨p1, p2⟩ := runOp_cache_stable s op k v h1 h2 (h3 op (by simp))
        exact ih (runOp s op) p1 p2 (fun o ho => h3 o (by simp [ho]))
  obtain ⟨hfs, hfc⟩ := main ops (storeSet st k v w).1 hstart.1 hstart.2 hops
  unfold storeGet
  rw [hfs, hfc]
  simp

/-- Witness for C9: a concrete successful set of key "k", followed by a set
of another key, a get of an absent key and a remove of the other key, after
which get of "k" with default null still returns the stored value. -/
theorem storeGet_after_set_witness :
    (storeGet (runOps (storeSet ⟨true, [], []⟩ "k" (.num 1) true).1
      [.opSet "j" (.str "x") true, .opGet "q" .null, .opRemove "j"]) "k" .null).2 = .num 1 :=
  storeGet_after_set ⟨true, [], []⟩ "k" (.num 1) true
    [.opSet "j" (.str "x") true, .opGet "q" .null, .opRemove "j"] .null
    (by simp [storeSet])
    (by
      intro op hop
      simp only [List.mem_cons, List.not_mem_nil, or_false] at hop
      rcases hop with h | h | h <;> subst h <;> simp [touchesKey])

/-! ## Statistics Aggregator (updateStatistics in the UI module) -/

/-- Entry of the game_history list read by updateStatistics (only the fields
the aggregator touches). -/
structure HistoryEntry where
  won : Bool
  accuracy : Option ℚ
deriving DecidableEq, Repr

/-- Values computed by updateStatistics; the DOM rendering applies
Math.round before writing the text content. -/
structure StatsView where
  totalGames : ℕ
  winRatePct : ℚ
  bestScore : ℚ
  avgAccuracyPct : ℚ
deriving DecidableEq, Repr

/-- updateStatistics from the UI module.  It reads the list stored at key
game_history (defaulting to []), not the GameStatistics document: totalGames
is the list length, gamesWon counts won entries, totalAccuracy sums
(accuracy || 0) over the whole list.  bestScore: the source tests
highScores.length on the high-scores document, an object with no length
property, so the test is undefined > 0 = false and 0 is displayed. -/
def updateStatistics (gameHistory : List HistoryEntry) : StatsView :=
  let totalGames := gameHistory.length
  let gamesWon := (gameHistory.filter (fun g => g.won)).length
  let totalAccuracy := (gameHistory.map (fun g => g.accuracy.getD 0)).sum
  { totalGames := totalGames
    winRatePct := if totalGames > 0 then ((gamesWon : ℚ) / (totalGames : ℚ)) * 100 else 0
    bestScore := 0
    avgAccuracyPct := if totalGames > 0 then totalAccuracy / (totalGames : ℚ) else 0 }

/-- Claim C8's formula for the aggregator's average accuracy: the mean of
the GameStatistics document's bounded colorAccuracyHistory. -/
def claimAvgAccuracy (stats : GameStats) : ℚ :=
  stats.colorAccuracyHistory.sum / (stats.colorAccuracyHistory.length : ℚ)

/-- Claim C8's formula for the aggregator's win rate: the ratio of the
GameStatistics document's counters. -/
def claimWinRate (stats : GameStats) : ℚ :=
  if stats.totalGames > 0 then (stats.gamesWon : ℚ) / (stats.totalGames : ℚ) else 0

/-- GameStatistics document of the C8 counterexample: one won game recorded,
bounded accuracy history [100]. -/
def statsDocC8 : GameStats :=
  { DEFAULT_GAME_STATISTICS with
      totalGames := 1
      gamesWon := 1
      colorAccuracyHistory := [100] }

/-- C8 counterexample: with the GameStatistics document claiming average
accuracy 100 and win rate 1, the aggregator run against a game_history list
holding one won entry of accuracy 0 displays average accuracy 0, and run
against an empty game_history list displays win rate 0 — it derives both
values from game_history (an all-time aggregate), never from the document's
bounded history or counters. -/
theorem updateStatistics_counterexample :
    claimAvgAccuracy statsDocC8 = 100 ∧
    (updateStatistics [⟨true, some 0⟩]).avgAccuracyPct = 0 ∧
    claimWinRate statsDocC8 = 1 ∧
    (updateStatistics []).winRatePct = 0 ∧
    (0 : ℚ) ≠ 100 ∧ (0 : ℚ) ≠ 1 := by
  refine ⟨?_, ?_, ?_, ?_, by norm_num, by norm_num⟩
  · norm_num [claimAvgAccuracy, statsDocC8, DEFAULT_GAME_STATISTICS]
  · norm_num [updateStatistics]
  · norm_num [claimWinRate, statsDocC8, DEFAULT_GAME_STATISTICS]
  · norm_num [updateStatistics]

/-- C8 (amended): the aggregator computes everything from the game_history
list: winRate% = 100 * wonCount / length (0 when empty, and bounded by
[0, 100]), avgAccuracy = sum of (accuracy or 0) over the entire list divided
by its length (an all-time mean, 0 when empty), and the displayed best score
is always 0. -/
theorem updateStatistics_spec (gameHistory : List HistoryEntry) :
    (updateStatistics gameHistory).totalGames = gameHistory.length ∧
    (updateStatistics gameHistory).winRatePct =
      (if gameHistory.length > 0
        then ((gameHistory.filter (fun g => g.won)).length : ℚ) / (gameHistory.length : ℚ) * 100
        else 0) ∧
    0 ≤ (updateStatistics gameHistory).winRatePct ∧
    (updateStatistics gameHistory).winRatePct ≤ 100 ∧
    (updateStatistics gameHistory).avgAccuracyPct =
      (if gameHistory.length > 0
        then (gameHistory.map (fun g => g.accuracy.getD 0)).sum / (gameHistory.length : ℚ)
        else 0) ∧
    (updateStatistics gameHistory).bestScore = 0 := by
  refine ⟨rfl, rfl, ?_, ?_, rfl, rfl⟩
  · unfold updateStatistics
    by_cases h : gameHistory.length > 0 <;> simp [h]
    positivity
  · unfold updateStatistics
    by_cases h : gameHistory.length > 0 <;> simp [h]
    have hle : ((gameHistory.filter (fun g => g.won)).length : ℚ) ≤ (gameHistory.length : ℚ) := by
      exact_mod_cast List.length_filter_le _ _
    have hpos : (0 : ℚ) < (gameHistory.length : ℚ) := by exact_mod_cast h
    have hdiv : ((gameHistory.filter (fun g => g.won)).length : ℚ) / (gameHistory.length : ℚ) ≤ 1 :=
      (div_le_one hpos).mpr hle
    nlinarith

/-! ## Reactive State Manager (src/js/stateManager.js)

Snapshots and actions are dynamic values (JsVal).  deepClone and the
deepFreeze in getState are identities in a value model.  Clock readings
(Date.now, new Date().toISOString(), performance.now) are threaded as the
rational parameter now; ISO strings are carried as their numeric reading. -/

/-- JS property read: undefined (none) outside objects or for absent keys.
Reads on null/undefined that would throw are short-circuited by the callers
that perform them, as in the source. -/
def JsVal.get (v : JsVal) (k : String) : Option JsVal :=
  match v with
  | .obj fields => fields.lookup k
  | _ => none

/-- JS property write on an object; writes on non-objects (which throw in
strict mode) are handled at each call site. -/
def JsVal.jset (v : JsVal) (k : String) (x : JsVal) : JsVal :=
  match v with
  | .obj fields => .obj (objSet fields k x)
  | _ => v

/-- Dot-path assignment of SET_UI_FIELD: walk all but the last segment, then
assign; none models the TypeError when the walk meets a non-object. -/
def JsVal.setPath : JsVal → List String → JsVal → Option JsVal
  | v, [], _ => some v
  | v, [k], x =>
      match v with
      | .obj fields => some (.obj (objSet fields k x))
      | _ => none
  | v, k :: k' :: rest, x =>
      match v.get k with
      | some sub =>
          match JsVal.setPath sub (k' :: rest) x with
          | some sub' => some (v.jset k sub')
          | none => none
      | none => none

/-- JS falsiness. -/
def jsFalsy : JsVal → Bool
  | .null => true
  | .undef => true
  | .nan => true
  | .bool b => !b
  | .num q => decide (q = 0)
  | .str s => decide (s = "")
  | .arr _ => false
  | .obj _ => false

/-- JS (x || d) with an absent x. -/
def jsOrElse (v : Option JsVal) (d : JsVal) : JsVal :=
  match v with
  | none => d
  | some x => if jsFalsy x then d else x

/-- JS x += 1 on a possibly absent or non-numeric field (undefined + 1 is
NaN; non-numeric coercions are collapsed to NaN). -/
def jsIncr : Option JsVal → JsVal
  | some (.num q) => .num (q + 1)
  | _ => .nan

/-- JS Math.max on two possibly non-numeric values (NaN absorbing). -/
def jsMax : JsVal → JsVal → JsVal
  | .num a, .num b => .num (max a b)
  | _, _ => .nan

/-- The initialState template from src/js/stateManager.js.  The module-load
timestamp for system.lastUpdated is taken as 0. -/
def initialState : JsVal :=
  .obj
    [("game", .obj
        [("generatedColor", .null), ("startTime", .null), ("score", .num 0),
         ("tipCount", .num 0), ("computerTipCount", .num 0),
         ("isActive", .bool false), ("difficulty", .str "easy"),
         ("round", .num 0), ("streak", .num 0), ("bestStreak", .num 0),
         ("totalGamesPlayed", .num 0), ("correctGuesses", .num 0),
         ("averageTime", .num 0)]),
     ("ui", .obj
        [("theme", .str "dark"), ("soundEnabled", .bool true),
         ("showHints", .bool true), ("animationsEnabled", .bool true),
         ("currentModal", .null),
         ("feedback", .obj
            [("message", .str ""), ("type", .str "info"),
             ("visible", .bool false)]),
         ("loading", .obj
            [("isLoading", .bool false), ("message", .str "")])]),
     ("user", .obj
        [("preferences", .obj
            [("preferredDifficulty", .str "easy"), ("colorFormat", .str "hex"),
             ("autoStartNext", .bool false), ("showPercentage", .bool true)]),
         ("statistics", .obj
            [("gamesPlayed", .num 0), ("gamesWon", .num 0),
             ("averageScore", .num 0), ("bestScore", .num 0),
             ("totalTimeSpent", .num 0), ("favoriteColors", .arr [])])]),
     ("system", .obj
        [("version", .str "2.0.0"), ("lastUpdated", .num 0),
         ("performance", .obj
            [("renderTime", .num 0), ("stateUpdateTime", .num 0),
             ("memoryUsage", .num 0)]),
         ("errors", .arr [])]),
     ("history", .obj
        [("states", .arr []), ("currentIndex", .num (-1)),
         ("maxHistory", .num 50)])]

/-- Per-field validators of the gameValidation table in validateState. -/
def validateGameField (field : String) (v : JsVal) : Bool :=
  if field = "generatedColor" then
    match v with
    | .null => true
    | .str _ => true
    | _ => false
  else if field = "score" ∨ field = "tipCount" ∨ field = "computerTipCount" then
    match v with
    | .num q => decide (0 ≤ q)
    | _ => false
  else if field = "isActive" then
    match v with
    | .bool _ => true
    | _ => false
  else if field = "difficulty" then
    match v with
    | .str s => decide (s = "easy" ∨ s = "medium" ∨ s = "hard")
    | _ => false
  else if field = "startTime" then
    match v with
    | .null => true
    | .num _ => true
    | _ => false
  else true

/-- Keys of the gameValidation table, in source order. -/
def gameValidationKeys : List String :=
  ["generatedColor", "score", "tipCount", "computerTipCount", "isActive",
   "difficulty", "startTime"]

/-- validateState from src/js/stateManager.js as a boolean: false covers
every throw inside it (missing required field, game of a non-object typeof,
the `in` test throwing on a null game, and a failing field validator).  A
game that is an array passes: typeof is object and the `in` tests are all
false, so every validator is skipped. -/
def validateState (state : JsVal) : Bool :=
  (["game", "ui", "user", "system", "history"].all
      (fun f => (state.get f).isSome)) &&
  (match state.get "game" with
    | some (.obj gf) =>
        gameValidationKeys.all (fun f =>
          match gf.lookup f with
          | none => true
          | some v => validateGameField f v)
    | some (.arr _) => true
    | _ => false)

/-- Failure modes of dispatch and timeTravel.  invalidAction is the missing
type-string throw; invalidState the validateState failure
(InvalidStateTransition); indexOutOfRange the timeTravel bounds throw;
reducerThrow any TypeError or payload-validation throw raised while the
reducer or the history bookkeeping runs. -/
inductive DispatchError where
  | invalidAction : DispatchError
  | invalidState : DispatchError
  | indexOutOfRange : DispatchError
  | reducerThrow : DispatchError
deriving DecidableEq, Repr

/-- SET_GAME_FIELD case of the reducer. -/
def reduceSetGameField (state : JsVal) (payload : Option JsVal) :
    Except DispatchError JsVal :=
  match payload with
  | some p =>
      if jsFalsy p then .error .reducerThrow
      else
        match p.get "field" with
        | some (.str f) =>
            let v := (p.get "value").getD .undef
            match state.get "game" with
            | some (.obj gf) => .ok (state.jset "game" (.obj (objSet gf f v)))
            | _ => .error .reducerThrow
        | _ => .error .reducerThrow
  | none => .error .reducerThrow

/-- UPDATE_SCORE case of the reducer: score := max(0, score + (delta || 0)).
Coercion paths through non-numeric operands are collapsed to NaN (every such
result fails the score validator, like NaN itself). -/
def reduceUpdateScore (state : JsVal) (payload : Option JsVal) :
    Except DispatchError JsVal :=
  let delta :=
    match payload with
    | none => JsVal.num 0
    | some p =>
        match p.get "delta" with
        | none => JsVal.num 0
        | some d => if jsFalsy d then JsVal.num 0 else d
  match state.get "game" with
  | some (.obj gf) =>
      let score := (gf.lookup "score").getD .undef
      let newScore :=
        match score, delta with
        | .num a, .num b => JsVal.num (max 0 (a + b))
        | _, _ => JsVal.nan
      .ok (state.jset "game" (.obj (objSet gf "score" newScore)))
  | _ => .error .reducerThrow

/-- START_GAME case of the reducer: spread of game with the round fields
seeded from the payload (a non-object game spreads to an empty object). -/
def reduceStartGame (state : JsVal) (payload : Option JsVal) (now : ℚ) :
    Except DispatchError JsVal :=
  let pget := fun k =>
    match payload with
    | some p => p.get k
    | none => none
  let base :=
    match state.get "game" with
    | some (.obj gf) => gf
    | _ => []
  let gf := objSet (objSet (objSet (objSet (objSet base
      "isActive" (.bool true))
      "startTime" (jsOrElse (pget "startTime") (.num now)))
      "generatedColor" (jsOrElse (pget "color") .null))
      "tipCount" (jsOrElse (pget "tipCount") (.num 3)))
      "computerTipCount" (jsOrElse (pget "computerTipCount") (.num 3))
  .ok (state.jset "game" (.obj gf))

/-- END_GAME case of the reducer. -/
def reduceEndGame (state : JsVal) (payload : Option JsVal) :
    Except DispatchError JsVal :=
  match state.get "game" with
  | some (.obj gf0) =>
      let won :=
        match payload with
        | some p =>
            match p.get "won" with
            | some w => !(jsFalsy w)
            | none => false
        | none => false
      let gf1 := objSet gf0 "isActive" (.bool false)
      let gf2 := objSet gf1 "totalGamesPlayed" (jsIncr (gf1.lookup "totalGamesPlayed"))
      let gf3 :=
        if won then
          let g1 := objSet gf2 "correctGuesses" (jsIncr (gf2.lookup "correctGuesses"))
          let g2 := objSet g1 "streak" (jsIncr (g1.lookup "streak"))
          objSet g2 "bestStreak"
            (jsMax ((g2.lookup "bestStreak").getD .undef) ((g2.lookup "streak").getD .undef))
        else objSet gf2 "streak" (.num 0)
      let st1 := state.jset "game" (.obj gf3)
      match st1.get "user" with
      | some (.obj uf) =>
          match uf.lookup "statistics" with
          | some (.obj sf) =>
              let sf1 := objSet sf "gamesPlayed" (jsIncr (sf.lookup "gamesPlayed"))
              let sf2 :=
                if won then objSet sf1 "gamesWon" (jsIncr (sf1.lookup "gamesWon")) else sf1
              .ok (st1.jset "user" (.obj (objSet uf "statistics" (.obj sf2))))
          | _ => .error .reducerThrow
      | _ => .error .reducerThrow
  | _ => .error .reducerThrow

/-- SET_UI_FIELD case of the reducer (dot-notation nested assignment). -/
def reduceSetUiField (state : JsVal) (payload : Option JsVal) :
    Except DispatchError JsVal :=
  match payload with
  | some p =>
      if jsFalsy p then .error .reducerThrow
      else
        match p.get "field" with
        | some (.str f) =>
            let v := (p.get "value").getD .undef
            match state.get "ui" with
            | some ui =>
                match ui.setPath (f.splitOn ".") v with
                | some ui' => .ok (state.jset "ui" ui')
                | none => .error .reducerThrow
            | none => .error .reducerThrow
        | _ => .error .reducerThrow
  | none => .error .reducerThrow

/-- SET_USER_PREFERENCE case of the reducer. -/
def reduceSetUserPreference (state : JsVal) (payload : Option JsVal) :
    Except DispatchError JsVal :=
  match payload with
  | some p =>
      if jsFalsy p then .error .reducerThrow
      else
        match p.get "key" with
        | some (.str k) =>
            let v := (p.get "value").getD .undef
            match state.get "user" with
            | some (.obj uf) =>
                match uf.lookup "preferences" with
                | some (.obj pf) =>
                    .ok (state.jset "user" (.obj (objSet uf "preferences"
                      (.obj (objSet pf k v)))))
                | _ => .error .reducerThrow
            | _ => .error .reducerThrow
        | _ => .error .reducerThrow
  | none => .error .reducerThrow

/-- ADD_ERROR case of the reducer: push the payload (spread, with timestamp)
onto system.errors, keeping only the last 20. -/
def reduceAddError (state : JsVal) (payload : Option JsVal) (now : ℚ) :
    Except DispatchError JsVal :=
  match state.get "system" with
  | some (.obj sysf) =>
      match sysf.lookup "errors" with
      | some (.arr errs) =>
          let entry :=
            match payload with
            | some (.obj pf) => JsVal.obj (objSet pf "timestamp" (.num now))
            | _ => JsVal.obj [("timestamp", .num now)]
          let pushed := errs ++ [entry]
          let limited := if pushed.length > 20 then pushed.drop (pushed.length - 20) else pushed
          .ok (state.jset "system" (.obj (objSet sysf "errors" (.arr limited))))
      | _ => .error .reducerThrow
  | _ => .error .reducerThrow

/-- Trailing statement of the reducer for every non-RESET case:
newState.system.lastUpdated := now. -/
def bumpLastUpdated (state : JsVal) (now : ℚ) : Except DispatchError JsVal :=
  match state.get "system" with
  | some (.obj sysf) =>
      .ok (state.jset "system" (.obj (objSet sysf "lastUpdated" (.num now))))
  | _ => .error .reducerThrow

/-- The reducer _reducer from src/js/stateManager.js.  deepClone of the
input is the identity here; RESET_STATE returns the initial template
directly (the source returns before the timestamp bump); unknown action
types fall through to the bump alone. -/
def reducer (state action : JsVal) (now : ℚ) : Except DispatchError JsVal :=
  let t :=
    match action.get "type" with
    | some (.str s) => s
    | _ => ""
  if t = "RESET_STATE" then .ok initialState
  else
    let payload := action.get "payload"
    match
      (if t = "SET_GAME_FIELD" then reduceSetGameField state payload
       else if t = "UPDATE_SCORE" then reduceUpdateScore state payload
       else if t = "START_GAME" then reduceStartGame state payload now
       else if t = "END_GAME" then reduceEndGame state payload
       else if t = "SET_UI_FIELD" then reduceSetUiField state payload
       else if t = "SET_USER_PREFERENCE" then reduceSetUserPreference state payload
       else if t = "ADD_ERROR" then reduceAddError state payload now
       else .ok state) with
    | .ok ns => bumpLastUpdated ns now
    | .error e => .error e

/-- The _addToHistory method: snapshot the (pre-rewrite) state into an
entry, truncate any redo states past currentIndex, push, evict the oldest
entry past maxHistory, then point currentIndex at the last entry.  Length
arithmetic is integer arithmetic. -/
def addToHistory (state action : JsVal) (now : ℚ) : Except DispatchError JsVal :=
  match state.get "history" with
  | some (.obj hf) =>
      match hf.lookup "states", hf.lookup "currentIndex", hf.lookup "maxHistory" with
      | some (.arr states), some (.num cur), some (.num maxH) =>
          let entry := JsVal.obj
            [("state", state), ("action", action), ("timestamp", .num now)]
          let truncated :=
            if cur < (((states.length : ℤ) - 1 : ℤ) : ℚ)
            then states.take (Int.toNat (jsFloor cur + 1))
            else states
          let pushed := truncated ++ [entry]
          let limited := if ((pushed.length : ℕ) : ℚ) > maxH then pushed.tail else pushed
          let hf1 := objSet hf "states" (.arr limited)
          let hf2 := objSet hf1 "currentIndex" (.num ((((limited.length : ℤ) - 1 : ℤ) : ℚ)))
          .ok (state.jset "history" (.obj hf2))
      | _, _, _ => .error .reducerThrow
  | _ => .error .reducerThrow

/-- The performance bookkeeping this._state.system.performance.stateUpdateTime
:= performance.now() - startTime; the measured duration is irrelevant to the
claims and recorded as 0.  States whose system.performance path is missing
would make the source throw here; they are left unchanged instead, which no
claim observes. -/
def writePerf (state : JsVal) : JsVal :=
  match state.get "system" with
  | some (.obj sysf) =>
      match sysf.lookup "performance" with
      | some (.obj perf) =>
          state.jset "system" (.obj (objSet sysf "performance"
            (.obj (objSet perf "stateUpdateTime" (.num 0)))))
      | _ => state
  | _ => state

/-- State-manager instance state: the current snapshot, the _actionHistory
log, and the _isReplaying guard.  The singleton registers no middleware, so
the middleware chain is empty and actions pass through unchanged. -/
structure Manager where
  state : JsVal
  actionHistory : List JsVal
  isReplaying : Bool

/-- dispatch from src/js/stateManager.js.  The result pairs the manager
after the call with the returned snapshot or the thrown error.  On the
action-shape throw, a reducer throw, or a validation failure the manager is
untouched; after validation succeeds the new state is committed before the
history bookkeeping runs, exactly as in the source. -/
def dispatch (m : Manager) (action : JsVal) (now : ℚ) :
    Manager × Except DispatchError JsVal :=
  if jsFalsy action then (m, .error .invalidAction)
  else
    match action.get "type" with
    | some (.str _) =>
        (match reducer m.state action now with
         | .error e => (m, .error e)
         | .ok newState =>
             if validateState newState then
               if m.isReplaying then
                 let st2 := writePerf newState
                 ({ m with state := st2 }, .ok st2)
               else
                 match addToHistory newState action now with
                 | .ok st1 =>
                     let st2 := writePerf st1
                     ({ m with
                          state := st2
                          actionHistory := m.actionHistory ++ [action] }, .ok st2)
                 | .error e => ({ m with state := newState }, .error e)
             else (m, .error .invalidState))
    | _ => (m, .error .invalidAction)

/-- Notification event handed to every subscriber callback (the fan-out to
the registered callbacks, with their exceptions caught, is external to the
state model). -/
structure Notification where
  previous : JsVal
  current : JsVal
  action : JsVal

/-- timeTravel from src/js/stateManager.js.  On an in-bounds index the
archived snapshot replaces the current one with history.currentIndex
rewritten to the index, no history entry is pushed, the replay guard is
net-unchanged, and subscribers are notified of the TIME_TRAVEL transition. -/
def timeTravel (m : Manager) (index : ℚ) :
    Manager × Except DispatchError Notification :=
  match m.state.get "history" with
  | some (.obj hf) =>
      match hf.lookup "states" with
      | some (.arr states) =>
          if index < 0 ∨ ((states.length : ℕ) : ℚ) ≤ index then
            (m, .error .indexOutOfRange)
          else
            match states.get? (Int.toNat (jsFloor index)) with
            | some entry =>
                match entry.get "state" with
                | some archived =>
                    match archived.get "history" with
                    | some (.obj ahf) =>
                        let newSt := archived.jset "history"
                          (.obj (objSet ahf "currentIndex" (.num index)))
                        ({ m with state := newSt },
                          .ok ⟨m.state, newSt,
                            .obj [("type", .str "TIME_TRAVEL"),
                                  ("payload", .obj [("index", .num index)])]⟩)
                    | _ =>
                        ({ m with state := archived, isReplaying := true },
                          .error .reducerThrow)
                | _ =>
                    ({ m with state := .undef, isReplaying := true },
                      .error .reducerThrow)
            | none => (m, .error .reducerThrow)
      | _ => (m, .error .reducerThrow)
  | _ => (m, .error .reducerThrow)

/-- The INIT action recorded by the constructor. -/
def initAction : JsVal := .obj [("type", .str "INIT")]

/-- Manager state after the constructor: clone of the initial template,
validated, with the INIT entry in history (the error branch is unreachable:
the template's history is well-formed). -/
def initialManager : Manager :=
  match addToHistory initialState initAction 0 with
  | .ok st => ⟨st, [], false⟩
  | .error _ => ⟨initialState, [], false⟩

/-- C2 (amended): dispatch of a falsy action or of an action whose type is
not a string fails with the action-shape error and leaves the manager (its
visible state and both history logs) untouched; an action whose type IS a
string — the empty string included — passes that check, and whenever the
reducer output fails snapshot validation, dispatch fails with
InvalidStateTransition, the visible state is unchanged and no history entry
is recorded. -/
theorem dispatch_error_preserves (m : Manager) (action : JsVal) (now : ℚ) :
    ((jsFalsy action = true ∨ ∀ s, ¬ action.get "type" = some (.str s)) →
      dispatch m action now = (m, .error .invalidAction)) ∧
    (∀ (t : String) (s' : JsVal), jsFalsy action = false →
      action.get "type" = some (.str t) →
      reducer m.state action now = .ok s' → validateState s' = false →
      dispatch m action now = (m, .error .invalidState)) := by
  constructor
  · intro h
    by_cases hfal : jsFalsy action
    · simp [dispatch, hfal]
    · rcases h with h | h
      · exact absurd h hfal
      · cases hty : action.get "type" with
        | none => simp [dispatch, hfal, hty]
        | some v =>
            cases v with
            | str s => exact absurd hty (h s)
            | null => simp [dispatch, hfal, hty]
            | undef => simp [dispatch, hfal, hty]
            | bool b => simp [dispatch, hfal, hty]
            | num q => simp [dispatch, hfal, hty]
            | nan => simp [dispatch, hfal, hty]
            | arr l => simp [dispatch, hfal, hty]
            | obj fs => simp [dispatch, hfal, hty]
  · intro t s' hfal hty hred hval
    simp [dispatch, hfal, hty, hred, hval]

/-- Action with an empty-string type tag, used against claim C2. -/
def emptyTypeAction : JsVal := .obj [("type", .str "")]

/-- States-list length of a snapshot's history, for observing history
growth. -/
def historyLength (st : JsVal) : Option ℕ :=
  match st.get "history" with
  | some (.obj hf) =>
      match hf.lookup "states" with
      | some (.arr l) => some l.length
      | _ => none
  | _ => none

/-- C2 counterexample: the action `type: ""` lacks a non-empty string type
tag, yet dispatch on the fresh manager succeeds (the source only checks
typeof, not emptiness): it returns a snapshot, logs the action, and grows
the snapshot history from one entry to two. -/
theorem dispatch_emptyType_counterexample :
    (∃ st, (dispatch initialManager emptyTypeAction 1).2 = .ok st) ∧
    (dispatch initialManager emptyTypeAction 1).1.actionHistory = [emptyTypeAction] ∧
    historyLength initialManager.state = some 1 ∧
    historyLength (dispatch initialManager emptyTypeAction 1).1.state = some 2 :=
  ⟨⟨_, rfl⟩, rfl, rfl, rfl⟩

/-- Action whose reducer output carries a negative score and therefore fails
validation. -/
def negScoreAction : JsVal :=
  .obj [("type", .str "SET_GAME_FIELD"),
        ("payload", .obj [("field", .str "score"), ("value", .num (-1))])]

/-- The reducer output for negScoreAction on the fresh manager. -/
def negScoreReduced : JsVal :=
  match reducer initialManager.state negScoreAction 1 with
  | .ok s => s
  | .error _ => .null

/-- Witness for C2: setting score to -1 produces a snapshot that fails
validation, and dispatch fails with the validation error leaving the manager
untouched. -/
theorem dispatch_error_preserves_witness :
    dispatch initialManager negScoreAction 1 = (initialManager, .error .invalidState) :=
  (dispatch_error_preserves initialManager negScoreAction 1).2 "SET_GAME_FIELD"
    negScoreReduced rfl rfl rfl rfl

/-- C4 (amended): timeTravel fails with IndexOutOfRange exactly when the
index is outside the history bounds; on an in-bounds index with a well-formed
archived entry, the archived snapshot becomes current with its
history.currentIndex field rewritten to the index (so the restored snapshot
equals the archived one except for that field), no history entry is pushed
and the action log is untouched, the replay guard is restored, and
subscribers are notified of the TIME_TRAVEL transition from the old to the
restored snapshot. -/
theorem timeTravel_spec (m : Manager) (index : ℚ) (hfields : List (String × JsVal))
    (states : List JsVal)
    (hh : m.state.get "history" = some (.obj hfields))
    (hs : hfields.lookup "states" = some (.arr states)) :
    ((index < 0 ∨ ((states.length : ℕ) : ℚ) ≤ index) →
      timeTravel m index = (m, .error .indexOutOfRange)) ∧
    ((timeTravel m index).2 = .error .indexOutOfRange →
      (index < 0 ∨ ((states.length : ℕ) : ℚ) ≤ index)) ∧
    (∀ (i : ℕ) (entry archived : JsVal) (ahf : List (String × JsVal)),
      (i : ℚ) = index → i < states.length →
      states.get? i = some entry →
      entry.get "state" = some archived →
      archived.get "history" = some (.obj ahf) →
      (timeTravel m index).1.state =
        archived.jset "history" (.obj (objSet ahf "currentIndex" (.num index))) ∧
      (timeTravel m index).1.actionHistory = m.actionHistory ∧
      (timeTravel m index).1.isReplaying = m.isReplaying ∧
      (timeTravel m index).2 = .ok ⟨m.state,
        archived.jset "history" (.obj (objSet ahf "currentIndex" (.num index))),
        .obj [("type", .str "TIME_TRAVEL"),
              ("payload", .obj [("index", .num index)])]⟩) := by
  refine ⟨?_, ?_, ?_⟩
  · intro hout
    simp [timeTravel, hh, hs, hout]
  · intro herr
    by_contra hin
    push_neg at hin
    obtain ⟨h0, hlen⟩ := hin
    have hf0 : 0 ≤ ⌊index⌋ := Int.floor_nonneg.mpr h0
    have hflt : ⌊index⌋ < (states.length : ℤ) := by
      by_contra hge
      push_neg at hge
      have hcast : ((states.length : ℤ) : ℚ) ≤ (⌊index⌋ : ℚ) := by exact_mod_cast hge
      have h1 : (⌊index⌋ : ℚ) ≤ index := Int.floor_le index
      push_cast at hcast
      have h2 : index < (states.length : ℚ) := hlen
      linarith
    have hnat : Int.toNat (jsFloor index) < states.length := by
      rw [jsFloor_eq]
      omega
    have hentry : states.get? (Int.toNat (jsFloor index)) =
        some (states.get ⟨Int.toNat (jsFloor index), hnat⟩) := List.get?_eq_get hnat
    have hbound : ¬ (index < 0 ∨ ((states.length : ℕ) : ℚ) ≤ index) := by
      push_neg
      exact ⟨h0, hlen⟩
    unfold timeTravel at herr
    rw [hh] at herr
    simp only [hs, hbound, if_false, hentry] at herr
    cases hst : (states.get ⟨Int.toNat (jsFloor index), hnat⟩).get "state" with
    | none =>
        simp only [hst] at herr
        simp at herr
    | some archived =>
        simp only [hst] at herr
        cases hah : archived.get "history" with
        | none =>
            simp only [hah] at herr
            simp at herr
        | some hv =>
            simp only [hah] at herr
            cases hv <;> simp at herr
  · intro i entry archived ahf hi hilen hget hstate hhist
    have hb : ¬ (index < 0 ∨ ((states.length : ℕ) : ℚ) ≤ index) := by
      push_neg
      constructor
      · rw [← hi]
        positivity
      · rw [← hi]
        exact_mod_cast hilen
    have hfl : Int.toNat (jsFloor index) = i := by
      rw [← hi, jsFloor_eq]
      simp
    have hget2 : states[i]? = some entry := by
      rw [← List.get?_eq_getElem?]
      exact hget
    refine ⟨?_, ?_, ?_, ?_⟩ <;>
      simp [timeTravel, hh, hs, hb, hfl, hget, hget2, hstate, hhist]

/-- Fields of the fresh manager's history object (INIT entry archived at
index 0). -/
def initHistoryFields : List (String × JsVal) :=
  [("states", .arr [.obj [("state", initialState), ("action", initAction),
      ("timestamp", .num 0)]]),
   ("currentIndex", .num 0), ("maxHistory", .num 50)]

/-- The template's own history fields (before the INIT entry was pushed). -/
def templateHistoryFields : List (String × JsVal) :=
  [("states", .arr []), ("currentIndex", .num (-1)), ("maxHistory", .num 50)]

/-- C4 counterexample: in the fresh manager the snapshot archived at history
index 0 is the initial template, whose history.currentIndex is -1; after
timeTravel 0 the current snapshot carries history.currentIndex 0, so it is
not structurally equal to the archived snapshot. -/
theorem timeTravel_counterexample :
    ((initialManager.state.get "history").bind (fun h =>
        match h with
        | .obj hf => hf.lookup "states"
        | _ => none)) =
      some (.arr [.obj [("state", initialState), ("action", initAction),
        ("timestamp", .num 0)]]) ∧
    (((timeTravel initialManager 0).1.state.get "history").bind (fun h =>
        match h with
        | .obj hf => hf.lookup "currentIndex"
        | _ => none)) = some (.num 0) ∧
    ((initialState.get "history").bind (fun h =>
        match h with
        | .obj hf => hf.lookup "currentIndex"
        | _ => none)) = some (.num (-1)) ∧
    (timeTravel initialManager 0).1.state ≠ initialState := by
  refine ⟨rfl, rfl, rfl, ?_⟩
  intro heq
  have h2 : ((initialState.get "history").bind (fun h =>
      match h with
      | .obj hf => hf.lookup "currentIndex"
      | _ => none)) = some (.num 0) := by
    rw [← heq]
    rfl
  have h3 : ((initialState.get "history").bind (fun h =>
      match h with
      | .obj hf => hf.lookup "currentIndex"
      | _ => none)) = some (.num (-1)) := rfl
  rw [h2] at h3
  simp only [Option.some.injEq, JsVal.num.injEq] at h3
  norm_num at h3

/-- Witness for C4: index 2 is out of bounds for the fresh manager's
one-entry history and fails; timeTravel 0 is in bounds, leaves the action
log untouched, and restores the archived template with currentIndex 0. -/
theorem timeTravel_spec_witness :
    timeTravel initialManager 2 = (initialManager, .error .indexOutOfRange) ∧
    (timeTravel initialManager 0).1.actionHistory = initialManager.actionHistory ∧
    (timeTravel initialManager 0).1.state =
      initialState.jset "history"
        (.obj (objSet templateHistoryFields "currentIndex" (.num 0))) := by
  have hout := (timeTravel_spec initialManager 2 initHistoryFields
      [.obj [("state", initialState), ("action", initAction), ("timestamp", .num 0)]]
      rfl rfl).1 (Or.inr (by norm_num))
  have hin := (timeTravel_spec initialManager 0 initHistoryFields
      [.obj [("state", initialState), ("action", initAction), ("timestamp", .num 0)]]
      rfl rfl).2.2 0
      (.obj [("state", initialState), ("action", initAction), ("timestamp", .num 0)])
      initialState templateHistoryFields (by norm_num) (by norm_num) rfl rfl rfl
  exact ⟨hout, hin.2.1, hin.1⟩

end ToneTracker
